import Mathlib

/-!
Verification development for the SBAI piping-BOM web application backend.

Each Python service function relevant to the checked claims is shallowly
embedded as an executable Lean definition over `List Char` strings and
rational-number arithmetic (Python `float` arithmetic is modelled over `ℚ`;
Python string dictionaries are modelled as typed records).  Fallible Python
code paths (code that can raise) are embedded as `Option`-returning
functions.

Sources embedded here:
  * `app/services/pipe_bom_service.py`
  * `app/services/vlm_bom_service.py`
  * `app/services/bom_comparison_service.py`
  * `app/services/symbol_db_service.py`
  * `app/core/llm_client.py`
  * `app/routers/upload.py`
-/

/-- Character strings, as plain lists of characters. -/
abbrev Chars := List Char

/-- Python whitespace characters (`str.strip` default set, ASCII part). -/
def pyIsSpace (c : Char) : Bool :=
  c == ' ' || c == '\t' || c == '\n' || c == '\x0d' || c == '\x0b' || c == '\x0c'

/-- Python `str.lstrip()`. -/
def pyLstrip (s : Chars) : Chars := s.dropWhile pyIsSpace

/-- Python `str.rstrip()`. -/
def pyRstrip (s : Chars) : Chars := (s.reverse.dropWhile pyIsSpace).reverse

/-- Python `str.strip()`. -/
def pyStrip (s : Chars) : Chars := pyLstrip (pyRstrip s)

/-- Python `str.rstrip(",")`. -/
def pyRstripComma (s : Chars) : Chars := (s.reverse.dropWhile (· == ',')).reverse

/-- Python `str.upper()` (ASCII case mapping; non-ASCII left unchanged). -/
def pyUpper (s : Chars) : Chars := s.map Char.toUpper

/-- Python `str.lower()` (ASCII case mapping; non-ASCII left unchanged). -/
def pyLower (s : Chars) : Chars := s.map Char.toLower

/-- `p` is an initial segment of `s`. -/
def leadsWith : Chars → Chars → Bool
  | [], _ => true
  | _ :: _, [] => false
  | p :: ps, c :: cs => p == c && leadsWith ps cs

/-- `p` is a final segment of `s`. -/
def trailsWith (p s : Chars) : Bool := leadsWith p.reverse s.reverse

/-- Python `needle in hay` substring test. -/
def containsSub (n : Chars) : Chars → Bool
  | [] => leadsWith n []
  | c :: cs => leadsWith n (c :: cs) || containsSub n cs

/-- Python `str.isdigit()` restricted to ASCII digits. -/
def pyIsDigitS (s : Chars) : Bool := !s.isEmpty && s.all Char.isDigit

/-- Numeric value of a string of ASCII digits. -/
def digitsToNat (s : Chars) : Nat :=
  s.foldl (fun a c => 10 * a + (c.toNat - 48)) 0

/-- Length of the longest run of characters satisfying `p` at the head. -/
def runLen (p : Char → Bool) : Chars → Nat
  | [] => 0
  | c :: cs => if p c then runLen p cs + 1 else 0

/-- Python `int(s)` for a plain optionally-signed decimal string;
`none` models a raised `ValueError`. -/
def pyIntOfStr (s : Chars) : Option Int :=
  let t := pyStrip s
  match t with
  | '-' :: ds => if pyIsDigitS ds then some (-(digitsToNat ds : Int)) else none
  | '+' :: ds => if pyIsDigitS ds then some (digitsToNat ds : Int) else none
  | ds => if pyIsDigitS ds then some (digitsToNat ds : Int) else none

/-- Python `float(s)` for a string made of digits and dots (the only shape
fed to it by the embedded services, which pre-extract a `[\d.]+` run);
`none` models a raised `ValueError`. -/
def pyFloatOfRun (s : Chars) : Option ℚ :=
  let intPart := s.takeWhile Char.isDigit
  let rest := s.drop intPart.length
  match rest with
  | [] => if intPart.isEmpty then none else some (digitsToNat intPart : ℚ)
  | '.' :: frac =>
    if frac.all Char.isDigit && !(intPart.isEmpty && frac.isEmpty) then
      some ((digitsToNat intPart : ℚ) + (digitsToNat frac : ℚ) / (10 ^ frac.length : ℚ))
    else none
  | _ => none

/-- Python `re.search(r'[\d.]+', s)`: the first maximal run of digits/dots. -/
def searchNumRun : Chars → Option Chars
  | [] => none
  | c :: cs =>
    if c.isDigit || c == '.' then
      some ((c :: cs).takeWhile (fun x => x.isDigit || x == '.'))
    else searchNumRun cs

/-- Python `s.rfind(ch)`: index of the last occurrence, `-1` if absent. -/
def rfindChar (ch : Char) (s : Chars) : Int :=
  match s.reverse.findIdx? (· == ch) with
  | some j => (s.length : Int) - 1 - (j : Int)
  | none => -1

/-- Python scalar values as they appear in decoded JSON dictionaries. -/
inductive PyVal where
  | vnone
  | vint (n : Int)
  | vfloat (q : ℚ)
  | vstr (s : Chars)
deriving DecidableEq

/-- Python truthiness of a scalar. -/
def PyVal.truthy : PyVal → Bool
  | .vnone => false
  | .vint n => n ≠ 0
  | .vfloat q => q ≠ 0
  | .vstr s => !s.isEmpty

/-- Decimal digits of a natural number. -/
def natDigits (n : Nat) : Chars := (Nat.toDigits 10 n)

/-- Python `str(...)` of an integer. -/
def pyStrOfInt (n : Int) : Chars :=
  if n < 0 then '-' :: natDigits n.natAbs else natDigits n.natAbs

/-- Best-effort decimal rendering of a rational with finite decimal
expansion (used only to model Python `str(float)`; never reached by any
theorem below). -/
def decimalRepr (q : ℚ) : Chars :=
  let sign : Chars := if q < 0 then ['-'] else []
  let a := |q|
  let ip := a.floor.toNat
  let fr := a - (ip : ℚ)
  let fracDigits := natDigits ((fr * 10 ^ 17).floor.toNat)
  sign ++ natDigits ip ++ ('.' :: fracDigits)

/-- Python `str(...)` of a scalar. -/
def pyStrOfVal : PyVal → Chars
  | .vnone => "None".data
  | .vint n => pyStrOfInt n
  | .vfloat q => decimalRepr q
  | .vstr s => s

/-- Drop every later duplicate, keeping first occurrences
(Python `dict.fromkeys` ordering). -/
def dedupFirstAux (seen : List Chars) : List Chars → List Chars
  | [] => []
  | x :: xs =>
    if seen.contains x then dedupFirstAux seen xs
    else x :: dedupFirstAux (x :: seen) xs

def dedupFirst (xs : List Chars) : List Chars := dedupFirstAux [] xs

/- ──────────────────────────────────────────────────────────────
   `app/services/pipe_bom_service.py`
   ────────────────────────────────────────────────────────────── -/

/-- Match of `PIPE_PIECE_PATTERN = [A-Z]{1,3}\d{3,5}(?:-\d+)?(?:[A-Z])?`
at the head of `s`: length of the (leftmost, greedy) match, if any. -/
def matchPipePieceLen (s : Chars) : Option Nat :=
  let u := runLen Char.isUpper s
  if u = 0 || u > 3 then none
  else
    let rest1 := s.drop u
    let d := runLen Char.isDigit rest1
    if d < 3 then none
    else
      let dTake := min d 5
      let rest2 := rest1.drop dTake
      let hLen :=
        match rest2 with
        | '-' :: r2 =>
          let dd := runLen Char.isDigit r2
          if dd = 0 then 0 else 1 + dd
        | _ => 0
      let rest3 := rest2.drop hLen
      let tLen :=
        match rest3 with
        | c :: _ => if c.isUpper then 1 else 0
        | [] => 0
      some (u + dTake + hLen + tLen)

/-- Match of `WELD_PATTERN = (?:FFW|W)\d+` at the head of `s`. -/
def matchWeldLen (s : Chars) : Option Nat :=
  if leadsWith "FFW".data s then
    let dd := runLen Char.isDigit (s.drop 3)
    if dd = 0 then none else some (3 + dd)
  else
    match s with
    | 'W' :: rest =>
      let dd := runLen Char.isDigit rest
      if dd = 0 then none else some (1 + dd)
    | _ => none

/-- `re.findall` driver: scan left to right, taking non-overlapping
matches and resuming after each match. -/
def findAllAux (m : Chars → Option Nat) : Nat → Chars → List Chars
  | 0, _ => []
  | _, [] => []
  | fuel + 1, c :: cs =>
    match m (c :: cs) with
    | some (n + 1) => ((c :: cs).take (n + 1)) :: findAllAux m fuel ((c :: cs).drop (n + 1))
    | _ => findAllAux m fuel cs

/-- `re.findall(pattern, s)` for a head-matcher `m`. -/
def findAll (m : Chars → Option Nat) (s : Chars) : List Chars :=
  findAllAux m s.length s

/-- Match of `DIMENSION_PATTERN = (\d{2,5})\s*(?:mm)?` at the head:
returns `(group-1 value, full match length)`. -/
def matchDimension (s : Chars) : Option (Nat × Nat) :=
  let d := runLen Char.isDigit s
  if d < 2 then none
  else
    let g := min d 5
    let rest := s.drop g
    let w := runLen pyIsSpace rest
    let rest2 := rest.drop w
    let mmLen := if leadsWith "mm".data rest2 then 2 else 0
    some (digitsToNat (s.take g), g + w + mmLen)

/-- `re.finditer(DIMENSION_PATTERN, s)` collecting group-1 values. -/
def findDimensionsAux : Nat → Chars → List Nat
  | 0, _ => []
  | _, [] => []
  | fuel + 1, c :: cs =>
    match matchDimension (c :: cs) with
    | some (v, n + 1) => v :: findDimensionsAux fuel ((c :: cs).drop (n + 1))
    | _ => findDimensionsAux fuel cs

def findDimensions (s : Chars) : List Nat := findDimensionsAux s.length s

/-- Case-insensitive initial-segment test (ASCII). -/
def leadsWithCI (p s : Chars) : Bool := leadsWith (pyUpper p) (pyUpper s)

/-- Match of `REVISION_PATTERN = REV[.\s]*([A-Z0-9]+)` (IGNORECASE) at the
head: returns `(group-1 characters, full match length)`. -/
def matchRevision (s : Chars) : Option (Chars × Nat) :=
  if leadsWithCI "REV".data s then
    let rest := s.drop 3
    let w := runLen (fun c => c == '.' || pyIsSpace c) rest
    let rest2 := rest.drop w
    let g := runLen (fun c => c.isUpper || c.isLower || c.isDigit) rest2
    if g = 0 then none else some (rest2.take g, 3 + w + g)
  else none

/-- `re.finditer(REVISION_PATTERN, s)` collecting group-1 substrings. -/
def findRevisionsAux : Nat → Chars → List Chars
  | 0, _ => []
  | _, [] => []
  | fuel + 1, c :: cs =>
    match matchRevision (c :: cs) with
    | some (g, n + 1) => g :: findRevisionsAux fuel ((c :: cs).drop (n + 1))
    | _ => findRevisionsAux fuel cs

def findRevisions (s : Chars) : List Chars := findRevisionsAux s.length s

/-- `COVER_KEYWORDS` from `pipe_bom_service.py`. -/
def COVER_KEYWORDS : List Chars :=
  ["INDEX".data, "TABLE OF CONTENTS".data, "목차".data, "COVER".data, "DRAWING LIST".data]

/-- Validity filter applied to raw pipe-piece pattern hits. -/
def validPiece (p : Chars) : Bool :=
  decide (p.length ≥ 4) && p.any Char.isDigit &&
    !(leadsWith "REV".data p || leadsWith "DWG".data p ||
      leadsWith "ISO".data p || leadsWith "PAGE".data p)

/-- `_is_cover_page(text)` from `pipe_bom_service.py`. -/
def isCoverPage (text : Chars) : Bool :=
  let pieces := findAll matchPipePieceLen text
  let valid := pieces.filter validPiece
  if valid.isEmpty then
    COVER_KEYWORDS.any (fun kw => containsSub kw (pyUpper text))
  else false

/-- Input page for the text extractor: the text layer and the text of
each extracted layout block (`block[4]` of `page.get_text("blocks")`). -/
structure PipePage where
  text : Chars
  blocks : List Chars
deriving DecidableEq

/-- One output record of `extract_pipe_bom`. -/
structure PipePageRec where
  page : Nat
  pipe_pieces : List Chars
  weld_count : Nat
  weld_items : List Chars
  dimensions_mm : List Nat
  other_dims : List Nat
  has_loose : Bool
  revision_notes : List Chars
  title_block : List Chars
  table_text : List Chars
  is_cover : Bool
deriving DecidableEq

/-- Record produced for page index `idx` by the loop body of
`extract_pipe_bom` (`pipe_bom_service.py`). -/
def extractPageRec (idx : Nat) (pg : PipePage) : PipePageRec :=
  let is_cover := if idx = 0 then isCoverPage pg.text else false
  if is_cover then
    { page := idx + 1, pipe_pieces := [], weld_count := 0, weld_items := [],
      dimensions_mm := [], other_dims := [], has_loose := false,
      revision_notes := [], title_block := [], table_text := [], is_cover := true }
  else
    let pieces := findAll matchPipePieceLen pg.text
    let valid := pieces.filter validPiece
    let welds := findAll matchWeldLen pg.text
    let dims := (findDimensions pg.text).filter (fun v => 100 ≤ v && v ≤ 30000)
    let revs := (findRevisions pg.text).map (fun g => "REV.".data ++ g)
    let tbl := (pg.blocks.map pyStrip).filter (fun bt => !bt.isEmpty && decide (bt.length > 2))
    { page := idx + 1,
      pipe_pieces := dedupFirst valid,
      weld_count := welds.length,
      weld_items := welds,
      dimensions_mm := dims,
      other_dims := [],
      has_loose := containsSub "LOOSE".data (pyUpper pg.text),
      revision_notes := revs,
      title_block := [],
      table_text := tbl,
      is_cover := false }

/-- `extract_pipe_bom` over the sequence of page inputs. -/
def extractPipeBom (pages : List PipePage) : List PipePageRec :=
  pages.enum.map (fun pr => extractPageRec pr.1 pr.2)

/- ──────────────────────────────────────────────────────────────
   `app/services/vlm_bom_service.py` — table post-processing
   ────────────────────────────────────────────────────────────── -/

/-- Backtracking step of `re.match(r'^([A-Z])\s+(.+)', desc)`: after the
letter, `\s+` greedily takes `k` whitespace characters (largest first)
and `(.+)` must then match at least one non-newline character. -/
def pickNonNl (rest : Chars) : Nat → Option Chars
  | 0 => none
  | k + 1 =>
    match rest.drop (k + 1) with
    | c :: cs => if c == '\n' then pickNonNl rest k else some ((c :: cs).takeWhile (· != '\n'))
    | [] => pickNonNl rest k

/-- `re.match(r'^([A-Z])\s+(.+)', desc)`: returns `(group 1, group 2)`. -/
def matchLetterDesc (desc : Chars) : Option (Char × Chars) :=
  match desc with
  | c :: rest =>
    if c.isUpper then
      let w := runLen pyIsSpace rest
      if w = 0 then none
      else (pickNonNl rest w).map (fun g2 => (c, g2))
    else none
  | [] => none

/-- `re.match(r'^\d+\s*MM', s)` succeeds. -/
def mmLead (s : Chars) : Bool :=
  let d := runLen Char.isDigit s
  if d = 0 then false
  else
    let rest := s.drop d
    let w := runLen pyIsSpace rest
    leadsWith "MM".data (rest.drop w)

/-- `re.match(r'^(\d+)\s*MM', s)`: group-1 value on success. -/
def mmLeadVal (s : Chars) : Option Nat :=
  let d := runLen Char.isDigit s
  if d = 0 then none
  else
    let rest := s.drop d
    let w := runLen pyIsSpace rest
    if leadsWith "MM".data (rest.drop w) then some (digitsToNat (s.take d)) else none

/-- `re.match(r'^(\d+)\s*MM\s*(?:<(\d+)>)?', s)`:
`(group-1 value, optional group-2 value)` on success. -/
def cutMatch (s : Chars) : Option (Nat × Option Nat) :=
  let d := runLen Char.isDigit s
  if d = 0 then none
  else
    let g1 := digitsToNat (s.take d)
    let rest := s.drop d
    let w := runLen pyIsSpace rest
    let rest2 := rest.drop w
    if leadsWith "MM".data rest2 then
      let rest3 := rest2.drop 2
      let w2 := runLen pyIsSpace rest3
      let rest4 := rest3.drop w2
      match rest4 with
      | '<' :: r =>
        let dd := runLen Char.isDigit r
        if dd = 0 then some (g1, none)
        else
          match r.drop dd with
          | '>' :: _ => some (g1, some (digitsToNat (r.take dd)))
          | _ => some (g1, none)
      | _ => some (g1, none)
    else none

/-- Raw BOM-table row as decoded from the table-pass VLM JSON
(absent keys are modelled by the `dict.get` defaults the code uses). -/
structure RawBomItem where
  letter_code : Chars := []
  item_no : Chars := []
  description : Chars := []
  quantity : PyVal := .vstr []
  size_inches : PyVal := .vstr []
  material_spec : PyVal := .vstr []
  weight_kg : PyVal := .vint 0
  remarks : PyVal := .vstr []
deriving DecidableEq

/-- Cleaned BOM-table row produced by `_postprocess_bom_items`. -/
structure CleanBomItem where
  letter_code : Chars
  quantity : Chars
  size_inches : Chars
  description : Chars
  material_spec : Chars
  weight_kg : ℚ
  remarks : Chars
deriving DecidableEq

/-- Loop body of `_postprocess_bom_items`: `some none` models a skipped
row (`continue`), outer `none` a raised exception in `float(...)`. -/
def cleanOneBomItem (item : RawBomItem) : Option (Option CleanBomItem) :=
  let letter0 := if !item.letter_code.isEmpty then item.letter_code else item.item_no
  let desc0 := item.description
  let split :=
    if letter0.isEmpty && !desc0.isEmpty then
      match matchLetterDesc desc0 with
      | some (c, g2) => ([c], g2)
      | none => (letter0, desc0)
    else (letter0, desc0)
  let letter := split.1
  let desc := split.2
  if desc.isEmpty && letter.isEmpty then some none
  else if pyUpper letter == "LENGTH".data || pyUpper letter == "CUT".data then some none
  else if mmLead desc || mmLead letter then some none
  else
    let weightQ : Option ℚ :=
      match item.weight_kg with
      | .vstr s =>
        match searchNumRun s with
        | some run => pyFloatOfRun run
        | none => some 0
      | .vint n => some (n : ℚ)
      | .vfloat q => some q
      | .vnone => some 0
    match weightQ with
    | none => none
    | some w =>
      let qtyS : Chars :=
        match item.quantity with
        | .vint n => if n ≠ 0 then pyStrOfInt n else []
        | .vfloat q => if q ≠ 0 then decimalRepr q else []
        | .vstr s => s
        | .vnone => "None".data
      some (some
        { letter_code := pyStrip letter,
          quantity := pyStrip qtyS,
          size_inches := pyStrip (pyStrOfVal item.size_inches),
          description := pyStrip desc,
          material_spec := pyStrip (pyStrOfVal item.material_spec),
          weight_kg := if w ≠ 0 then w else 0,
          remarks := pyStrip (pyStrOfVal item.remarks) })

/-- `_postprocess_bom_items` from `vlm_bom_service.py`. -/
def postprocessBomItems : List RawBomItem → Option (List CleanBomItem)
  | [] => some []
  | it :: rest => do
    let r ← cleanOneBomItem it
    let rs ← postprocessBomItems rest
    pure (match r with | some c => c :: rs | none => rs)

/-- Raw entry of the explicit `cut_lengths` array of the table-pass JSON. -/
structure RawCut where
  cut_no : PyVal := .vint 0
  length_mm : PyVal := .vint 0
deriving DecidableEq

/-- Cleaned cut-length entry. -/
structure CutLen where
  cut_no : Int
  length_mm : ℚ
deriving DecidableEq

/-- `length_mm` coercion used by `_postprocess_cut_lengths`
(string → first `[\d.]+` run → `float`, `None` → 0). -/
def cutLengthVal (c : RawCut) : Option ℚ :=
  match c.length_mm with
  | .vstr s =>
    match searchNumRun s with
    | some run => pyFloatOfRun run
    | none => some 0
  | .vnone => some 0
  | .vint n => some (n : ℚ)
  | .vfloat q => some q

/-- `cut_no` coercion used by `_postprocess_cut_lengths`:
`int(cut_no) if cut_no and str(cut_no).isdigit() else len(cleaned)+1`. -/
def cutNoVal (c : RawCut) (accLen : Nat) : Int :=
  if c.cut_no.truthy && pyIsDigitS (pyStrOfVal c.cut_no) then
    (digitsToNat (pyStrOfVal c.cut_no) : Int)
  else (accLen + 1 : Int)

/-- First loop of `_postprocess_cut_lengths` (explicit `cut_lengths` rows). -/
def explicitCuts : List RawCut → List CutLen → Option (List CutLen)
  | [], acc => some acc
  | c :: rest, acc => do
    let lq ← cutLengthVal c
    if lq > 0 then
      explicitCuts rest (acc ++ [⟨cutNoVal c acc.length, lq⟩])
    else explicitCuts rest acc

/-- Cut number taken for a BOM-derived cut row: the `<n>` group when the
regex captured one, else the running index. -/
def bomCutNo (g2 : Option Nat) (accLen : Nat) : Int :=
  match g2 with
  | some g => (g : Int)
  | none => (accLen + 1 : Int)

/-- Second loop of `_postprocess_cut_lengths` (cut rows mixed into the
BOM items are moved to the cut list; the rest is kept as BOM). -/
def splitBomCuts : List CleanBomItem → List CutLen → List CleanBomItem →
    (List CutLen × List CleanBomItem)
  | [], accC, accB => (accC, accB)
  | it :: rest, accC, accB =>
    match cutMatch it.description with
    | some (v, g2) =>
      splitBomCuts rest (accC ++ [⟨bomCutNo g2 accC.length, (v : ℚ)⟩]) accB
    | none =>
      match mmLeadVal it.letter_code with
      | some v => splitBomCuts rest (accC ++ [⟨(accC.length + 1 : Int), (v : ℚ)⟩]) accB
      | none => splitBomCuts rest accC (accB ++ [it])

/-- Stable insertion of `x` into `l`: `x` goes after every element `y`
with `le y x` (so equal keys keep their existing order). -/
def insertStable {α : Type} (le : α → α → Bool) (x : α) : List α → List α
  | [] => [x]
  | y :: ys => if le y x then y :: insertStable le x ys else x :: y :: ys

/-- Stable insertion sort (model of Python `list.sort(key=...)`, which is
guaranteed stable). -/
def stableSortBy {α : Type} (le : α → α → Bool) (xs : List α) : List α :=
  xs.foldl (fun acc x => insertStable le x acc) []

/-- Key comparison of the final `cleaned_cuts.sort(key=lambda c: c["cut_no"])`. -/
def cutLe (a b : CutLen) : Bool := decide (a.cut_no ≤ b.cut_no)

/-- `_postprocess_cut_lengths` from `vlm_bom_service.py`. -/
def postprocessCutLengths (cuts : List RawCut) (bom : List CleanBomItem) :
    Option (List CutLen × List CleanBomItem) := do
  let c1 ← explicitCuts cuts []
  let sp := splitBomCuts bom c1 []
  pure (stableSortBy cutLe sp.1, sp.2)

/-- Table-pass post-processing pipeline as composed in
`analyze_single_page`: clean the raw BOM rows first, then separate cut
lengths, returning `(bom_table, cut_lengths)`. -/
def tablePostprocess (rawItems : List RawBomItem) (rawCuts : List RawCut) :
    Option (List CleanBomItem × List CutLen) := do
  let bom ← postprocessBomItems rawItems
  let cl ← postprocessCutLengths rawCuts bom
  pure (cl.2, cl.1)


/- ──────────────────────────────────────────────────────────────
   `app/services/bom_comparison_service.py`
   ────────────────────────────────────────────────────────────── -/

/-- `BOM_LETTER_TO_TYPES` (dict in literal order). -/
def BOM_LETTER_TO_TYPES : List (Chars × Chars × List Chars) :=
  [("A".data, "pipe".data, ["pipe".data]),
   ("B".data, "pipe".data, ["pipe".data]),
   ("C".data, "fitting".data, ["tee".data, "reducing_tee".data, "equal_tee".data]),
   ("D".data, "fitting".data, ["reducer_con".data, "reducer_ecc".data, "reducer".data]),
   ("E".data, "fitting".data, ["sockolet".data, "weldolet".data]),
   ("F".data, "flange".data, ["wn_flange".data]),
   ("G".data, "flange".data, ["wn_flange".data]),
   ("H".data, "flange".data, ["blind_flange".data, "wn_flange".data]),
   ("I".data, "flange".data, ["orifice_flange".data]),
   ("J".data, "fitting".data, ["elbow_90".data, "elbow_90_lr".data, "elbow_45".data]),
   ("K".data, "fitting".data, ["cap".data, "coupling".data]),
   ("L".data, "fitting".data, ["elbow_90".data, "elbow_90_lr".data]),
   ("M".data, "flange".data, ["wn_flange".data]),
   ("N".data, "flange".data, ["blind_flange".data])]

/-- `SKIP_LETTER_CODES`. -/
def SKIP_LETTER_CODES : List Chars :=
  ["O".data, "P".data, "Q".data, "R".data, "S".data, "T".data,
   "U".data, "V".data, "W".data, "X".data, "Y".data, "Z".data]

/-- `DESCRIPTION_TO_SUBTYPE` (dict in literal order). -/
def DESCRIPTION_TO_SUBTYPE : List (Chars × Chars) :=
  [("PIPE".data, "pipe".data),
   ("ELBOW 90 LR".data, "elbow_90_lr".data),
   ("ELBOW 90".data, "elbow_90".data),
   ("ELBOW 45".data, "elbow_45".data),
   ("EQUAL TEE".data, "tee".data),
   ("REDUCING TEE".data, "reducing_tee".data),
   ("TEE".data, "tee".data),
   ("REDUCER CON".data, "reducer_con".data),
   ("REDUCER ECC".data, "reducer_ecc".data),
   ("REDUCER ECCENTRIC".data, "reducer_ecc".data),
   ("REDUCER CONCENTRIC".data, "reducer_con".data),
   ("REDUCER".data, "reducer_con".data),
   ("WN FLANGE".data, "wn_flange".data),
   ("FLANGE WN".data, "wn_flange".data),
   ("BLIND FLANGE".data, "blind_flange".data),
   ("ORIFICE FLANGE".data, "orifice_flange".data),
   ("SOCKOLET".data, "sockolet".data),
   ("WELDOLET".data, "weldolet".data),
   ("GATE VALVE".data, "gate".data),
   ("GLOBE VALVE".data, "globe".data),
   ("BALL VALVE".data, "ball".data),
   ("CHECK VALVE".data, "check".data),
   ("NEEDLE VALVE".data, "needle".data),
   ("NON RETURN".data, "non_return".data),
   ("BUTTERFLY".data, "butterfly".data),
   ("CLAMP".data, "clamp".data),
   ("SUPPORT".data, "support".data),
   ("CAP".data, "cap".data),
   ("COUPLING".data, "coupling".data)]

/-- `DESCRIPTION_TO_TYPE` (dict in literal order). -/
def DESCRIPTION_TO_TYPE : List (Chars × Chars) :=
  [("PIPE".data, "pipe".data),
   ("ELBOW".data, "fitting".data),
   ("TEE".data, "fitting".data),
   ("REDUCER".data, "fitting".data),
   ("SOCKOLET".data, "fitting".data),
   ("WELDOLET".data, "fitting".data),
   ("CAP".data, "fitting".data),
   ("COUPLING".data, "fitting".data),
   ("FLANGE".data, "flange".data),
   ("VALVE".data, "valve".data),
   ("GASKET".data, "gasket".data),
   ("BOLT".data, "bolt".data),
   ("NUT".data, "bolt".data),
   ("STUD".data, "bolt".data),
   ("CLAMP".data, "support".data),
   ("SUPPORT".data, "support".data),
   ("PAINT".data, "skip".data),
   ("GALVAN".data, "skip".data)]

/-- `sorted(keys, key=len, reverse=True)` — Python `sorted` is stable, so
equal lengths keep dictionary insertion order. -/
def sortKeysByLenDesc (kvs : List (Chars × Chars)) : List (Chars × Chars) :=
  stableSortBy (fun a b => decide (b.1.length ≤ a.1.length)) kvs

/-- Component type/subtype inference result of `_get_component_info_from_bom`. -/
structure CompInfo where
  ctype : Chars
  subtype : Chars
  skip : Bool
deriving DecidableEq

/-- `_get_component_info_from_bom(item)`. -/
def getComponentInfoFromBom (item : CleanBomItem) : CompInfo :=
  let letter := pyUpper (pyStrip item.letter_code)
  let desc := pyUpper (pyStrip item.description)
  if SKIP_LETTER_CODES.contains letter then ⟨[], [], true⟩
  else if ["GASKET".data, "BOLT".data, "NUT".data, "STUD".data, "PAINT".data,
      "GALVAN".data].any (fun kw => containsSub kw desc) then ⟨[], [], true⟩
  else
    let subtype0 :=
      match (sortKeysByLenDesc DESCRIPTION_TO_SUBTYPE).find? (fun kv => containsSub kv.1 desc) with
      | some kv => kv.2
      | none => []
    let ctype0 :=
      match (sortKeysByLenDesc DESCRIPTION_TO_TYPE).find? (fun kv => containsSub kv.1 desc) with
      | some kv => kv.2
      | none => []
    let letterEntry := BOM_LETTER_TO_TYPES.find? (fun e => e.1 = letter)
    let st1 :=
      if subtype0.isEmpty then
        match letterEntry with
        | some e => (e.2.1, match e.2.2 with | s :: _ => s | [] => [])
        | none => (ctype0, subtype0)
      else (ctype0, subtype0)
    let ct2 :=
      if st1.1.isEmpty then
        match letterEntry with
        | some e => e.2.1
        | none => st1.1
      else st1.1
    if ct2 = "skip".data || ct2 = "gasket".data || ct2 = "bolt".data then ⟨[], [], true⟩
    else ⟨ct2, st1.2, false⟩

/-- `_parse_bom_quantity(qty)` for the string quantities of cleaned BOM
rows (`none` models a raised `ValueError` in `float`). -/
def parseBomQuantity (qty : Chars) : Option ℚ :=
  if qty.isEmpty then some 0
  else
    match searchNumRun (pyStrip qty) with
    | some run => pyFloatOfRun run
    | none => some 0

/-- `_is_pipe_length_qty(qty)` for string quantities. -/
def isPipeLengthQty (qty : Chars) : Bool := containsSub "M".data (pyUpper qty)

/-- Drawing component as decoded from the drawing-pass VLM JSON. -/
structure DrawComp where
  ctype : Chars := []
  subtype : Chars := []
  quantity : PyVal := .vint 1
deriving DecidableEq

/-- Quantity coercion of the grouping loop (`int(qty)` for strings with a
fallback of 1; `none` models the `TypeError` of summing a `None`). -/
def drawCompQty (c : DrawComp) : Option ℚ :=
  match c.quantity with
  | .vstr s =>
    match pyIntOfStr s with
    | some n => some (n : ℚ)
    | none => some 1
  | .vint n => some (n : ℚ)
  | .vfloat q => some q
  | .vnone => none

/-- `defaultdict` accumulation keyed by `f"{ctype}:{csubtype}"`, keeping
first-insertion order (Python dicts preserve insertion order). -/
def addGroup : List (Chars × ℚ) → Chars → ℚ → List (Chars × ℚ)
  | [], k, q => [(k, q)]
  | (k0, q0) :: rest, k, q =>
    if k0 = k then (k0, q0 + q) :: rest else (k0, q0) :: addGroup rest k q

/-- Grouping pass of `compare_single_page` (step 1). -/
def buildGroups : List DrawComp → List (Chars × ℚ) → Option (List (Chars × ℚ))
  | [], acc => some acc
  | c :: rest, acc => do
    let q ← drawCompQty c
    buildGroups rest (addGroup acc (pyLower c.ctype ++ ':' :: pyLower c.subtype) q)

/-- `dk.split(":", 1)` as used on group keys. -/
def splitColon (s : Chars) : Chars × Chars :=
  if containsSub ":".data s then
    (s.takeWhile (· ≠ ':'), (s.dropWhile (· ≠ ':')).drop 1)
  else (s, [])

/-- One row of the produced `comparison_items`. `drawing_quantity` is a
number or the empty-string placeholder (modelled `none`). -/
structure CompItem where
  bom_letter : Chars
  bom_description : Chars
  bom_quantity : Chars
  bom_size : Chars
  drawing_component : Chars
  drawing_quantity : Option ℚ
  match_status : Chars
  quantity_diff : ℚ
  notes : Chars
deriving DecidableEq

/-- Python `int(float)` truncation toward zero. -/
def ratTrunc (q : ℚ) : Int := q.num.tdiv (q.den : Int)

/-- Decimal rendering of a group quantity for the `notes` f-string (sums
of JSON integers stay integral; the non-integral case wears the
best-effort float rendering). -/
def pyStrOfNum (q : ℚ) : Chars :=
  if q.den = 1 then pyStrOfInt q.num else decimalRepr q

/-- Drawing-group matching of the step-2 loop: exact `type:subtype` key
lookup first, then the fuzzy same-type subtype-containment scan, in group
insertion order. -/
def matchedGroupFor (groups : List (Chars × ℚ)) (info : CompInfo) : Option (Chars × ℚ) :=
  let key := info.ctype ++ ':' :: info.subtype
  match groups.find? (fun g => g.1 = key) with
  | some g => some g
  | none =>
    groups.find? (fun g =>
      let dt := (splitColon g.1).1
      let ds := (splitColon g.1).2
      dt = info.ctype && !info.subtype.isEmpty && !ds.isEmpty &&
        (containsSub info.subtype ds || containsSub ds info.subtype))

/-- Per-BOM-row comparison (the body of the step-2 loop of
`compare_single_page`): yields the emitted row and the drawing-group key
it matched, if any. -/
def compareRow (groups : List (Chars × ℚ)) (item : CleanBomItem) :
    Option (CompItem × Option Chars) :=
  let info := getComponentInfoFromBom item
  let letterS := pyStrip item.letter_code
  let descS := pyStrip item.description
  let sizeS := pyStrip item.size_inches
  if info.skip then
    some ({ bom_letter := letterS, bom_description := descS,
            bom_quantity := item.quantity, bom_size := sizeS,
            drawing_component := [], drawing_quantity := none,
            match_status := "N/A".data, quantity_diff := 0,
            notes := "비교 대상 아님 (gasket/bolt/paint 등)".data }, none)
  else if info.ctype.isEmpty && info.subtype.isEmpty then
    some ({ bom_letter := letterS, bom_description := descS,
            bom_quantity := item.quantity, bom_size := sizeS,
            drawing_component := [], drawing_quantity := none,
            match_status := "N/A".data, quantity_diff := 0,
            notes := "매핑 불가".data }, none)
  else if isPipeLengthQty item.quantity then
    some ({ bom_letter := letterS, bom_description := descS,
            bom_quantity := item.quantity, bom_size := sizeS,
            drawing_component := info.ctype ++ ':' :: info.subtype,
            drawing_quantity := none,
            match_status := "N/A".data, quantity_diff := 0,
            notes := "파이프 길이(M) - 수량 비교 불가".data }, none)
  else do
    let bq ← parseBomQuantity item.quantity
    let key := info.ctype ++ ':' :: info.subtype
    match matchedGroupFor groups info with
    | none =>
      some ({ bom_letter := letterS, bom_description := descS,
              bom_quantity := if !item.quantity.isEmpty then item.quantity
                else pyStrOfInt (ratTrunc bq),
              bom_size := sizeS,
              drawing_component := if !info.ctype.isEmpty then key else [],
              drawing_quantity := none,
              match_status := "BOM_ONLY".data, quantity_diff := 0,
              notes := [] }, none)
    | some g =>
      some ({ bom_letter := letterS, bom_description := descS,
              bom_quantity := if !item.quantity.isEmpty then item.quantity
                else pyStrOfInt (ratTrunc bq),
              bom_size := sizeS,
              drawing_component := if !info.ctype.isEmpty then key else [],
              drawing_quantity := some g.2,
              match_status := if |bq - g.2| < 1 / 100 then "MATCH".data else "MISMATCH".data,
              quantity_diff := if |bq - g.2| < 1 / 100 then 0 else g.2 - bq,
              notes := [] }, some g.1)

/-- `Option`-monadic map used to run the step-2 loop. -/
def mapOptM {α β : Type} (f : α → Option β) : List α → Option (List β)
  | [] => some []
  | x :: xs => do
    let y ← f x
    let ys ← mapOptM f xs
    pure (y :: ys)

/-- Step 3 of `compare_single_page`: `DRAWING_ONLY` rows for unmatched
drawing groups, skipping `support`/`instrument` types. -/
def drawingOnlyEntries (groups : List (Chars × ℚ)) (matchedKeys : List Chars) :
    List CompItem :=
  (groups.filter (fun g =>
    !matchedKeys.contains g.1 &&
      !((splitColon g.1).1 = "support".data || (splitColon g.1).1 = "instrument".data))).map
    (fun g =>
      { bom_letter := [], bom_description := [], bom_quantity := [], bom_size := [],
        drawing_component := g.1, drawing_quantity := some g.2,
        match_status := "DRAWING_ONLY".data, quantity_diff := g.2,
        notes := "도면에만 존재: ".data ++ (splitColon g.1).2 ++ " x".data ++ pyStrOfNum g.2 })

/-- Banker's rounding of a rational to an integer (Python `round`). -/
def roundHalfEven (q : ℚ) : Int :=
  if q - (⌊q⌋ : ℚ) < 1 / 2 then ⌊q⌋
  else if 1 / 2 < q - (⌊q⌋ : ℚ) then ⌊q⌋ + 1
  else if ⌊q⌋ % 2 = 0 then ⌊q⌋ else ⌊q⌋ + 1

/-- Python `round(x, 1)` modelled over `ℚ`. -/
def pyRound1 (q : ℚ) : ℚ := (roundHalfEven (q * 10) : ℚ) / 10

/-- Per-page summary of `compare_single_page` (step 4). -/
structure CompareSummary where
  total_bom_items : Nat
  comparable_items : Nat
  matched : Nat
  mismatched : Nat
  bom_only : Nat
  drawing_only : Nat
  na_items : Nat
  match_rate : ℚ
deriving DecidableEq

/-- Input page data of `compare_single_page`. -/
structure ComparePageData where
  page : Int := 0
  drawing_number : Chars := []
  line_no : Chars := []
  bom_table : List CleanBomItem := []
  components : List DrawComp := []
deriving DecidableEq

/-- Output of `compare_single_page`. -/
structure CompareResult where
  page : Int
  drawing_number : Chars
  line_no : Chars
  comparison_items : List CompItem
  summary : CompareSummary
deriving DecidableEq

/-- Full `comparison_items` list: per-BOM-row entries in order, then the
`DRAWING_ONLY` tail for unmatched groups. -/
def compareItemsOf (groups : List (Chars × ℚ)) (rows : List (CompItem × Option Chars)) :
    List CompItem :=
  rows.map Prod.fst ++ drawingOnlyEntries groups (rows.filterMap Prod.snd)

/-- Step-4 summary statistics over the emitted comparison rows. -/
def summaryOf (nBom : Nat) (items : List CompItem) : CompareSummary :=
  { total_bom_items := nBom,
    comparable_items :=
      items.countP (fun ci => ci.match_status = "MATCH".data) +
      items.countP (fun ci => ci.match_status = "MISMATCH".data) +
      items.countP (fun ci => ci.match_status = "BOM_ONLY".data) +
      items.countP (fun ci => ci.match_status = "DRAWING_ONLY".data),
    matched := items.countP (fun ci => ci.match_status = "MATCH".data),
    mismatched := items.countP (fun ci => ci.match_status = "MISMATCH".data),
    bom_only := items.countP (fun ci => ci.match_status = "BOM_ONLY".data),
    drawing_only := items.countP (fun ci => ci.match_status = "DRAWING_ONLY".data),
    na_items := items.countP (fun ci => ci.match_status = "N/A".data),
    match_rate :=
      pyRound1 (((items.countP (fun ci => ci.match_status = "MATCH".data)) : ℚ) /
        ((max 1 (items.countP (fun ci => ci.match_status = "MATCH".data) +
          items.countP (fun ci => ci.match_status = "MISMATCH".data) +
          items.countP (fun ci => ci.match_status = "BOM_ONLY".data) +
          items.countP (fun ci => ci.match_status = "DRAWING_ONLY".data)) : Nat) : ℚ) * 100) }

/-- Result record assembled by `compare_single_page`. -/
def mkCompareResult (pd : ComparePageData) (groups : List (Chars × ℚ))
    (rows : List (CompItem × Option Chars)) : CompareResult :=
  { page := pd.page, drawing_number := pd.drawing_number, line_no := pd.line_no,
    comparison_items := compareItemsOf groups rows,
    summary := summaryOf pd.bom_table.length (compareItemsOf groups rows) }

/-- `compare_single_page(page_data)`; `none` models a raised exception
(caught by the caller `compare_all_pages`). -/
def compareSinglePage (pd : ComparePageData) : Option CompareResult := do
  let groups ← buildGroups pd.components []
  let rows ← mapOptM (compareRow groups) pd.bom_table
  pure (mkCompareResult pd groups rows)

/- ──────────────────────────────────────────────────────────────
   `app/services/symbol_db_service.py` — JSON decode and recovery
   ────────────────────────────────────────────────────────────── -/

/-- JSON values (numbers split into integral and fractional as
`json.loads` does; non-integral numbers are modelled exactly over `ℚ`). -/
inductive Json where
  | jnull
  | jbool (b : Bool)
  | jint (n : Int)
  | jnum (q : ℚ)
  | jstr (s : Chars)
  | jarr (xs : List Json)
  | jobj (kvs : List (Chars × Json))

/-- JSON insignificant whitespace. -/
def jsonWs (c : Char) : Bool := c == ' ' || c == '\t' || c == '\n' || c == '\x0d'

/-- Hexadecimal digit value. -/
def hexVal (c : Char) : Option Nat :=
  if '0' ≤ c && c ≤ '9' then some (c.toNat - 48)
  else if 'a' ≤ c && c ≤ 'f' then some (c.toNat - 87)
  else if 'A' ≤ c && c ≤ 'F' then some (c.toNat - 55)
  else none

/-- Body of a JSON string literal, after the opening quote:
`(content, rest-after-closing-quote)`. -/
def parseQString : Nat → Chars → Option (Chars × Chars)
  | 0, _ => none
  | _, [] => none
  | fuel + 1, c :: cs =>
    if c == '"' then some ([], cs)
    else if c == '\\' then
      match cs with
      | '"' :: r => (parseQString fuel r).map (fun p => ('"' :: p.1, p.2))
      | '\\' :: r => (parseQString fuel r).map (fun p => ('\\' :: p.1, p.2))
      | '/' :: r => (parseQString fuel r).map (fun p => ('/' :: p.1, p.2))
      | 'n' :: r => (parseQString fuel r).map (fun p => ('\n' :: p.1, p.2))
      | 't' :: r => (parseQString fuel r).map (fun p => ('\t' :: p.1, p.2))
      | 'r' :: r => (parseQString fuel r).map (fun p => ('\x0d' :: p.1, p.2))
      | 'b' :: r => (parseQString fuel r).map (fun p => ('\x08' :: p.1, p.2))
      | 'f' :: r => (parseQString fuel r).map (fun p => ('\x0c' :: p.1, p.2))
      | 'u' :: h1 :: h2 :: h3 :: h4 :: r => do
        let v1 ← hexVal h1
        let v2 ← hexVal h2
        let v3 ← hexVal h3
        let v4 ← hexVal h4
        let code := ((v1 * 16 + v2) * 16 + v3) * 16 + v4
        let p ← parseQString fuel r
        pure (Char.ofNat code :: p.1, p.2)
      | _ => none
    else (parseQString fuel cs).map (fun p => (c :: p.1, p.2))

/-- JSON number at the head of `s`: `(value, rest)`. -/
def parseJNumber (s : Chars) : Option (Json × Chars) :=
  let (neg, s1) := match s with | '-' :: r => (true, r) | _ => (false, s)
  let ip := s1.takeWhile Char.isDigit
  if ip.isEmpty then none
  else
    let r1 := s1.drop ip.length
    let intVal : Int := (digitsToNat ip : Int)
    match r1 with
    | '.' :: fr =>
      let fd := fr.takeWhile Char.isDigit
      if fd.isEmpty then none
      else
        let r2 := fr.drop fd.length
        let base : ℚ := (intVal : ℚ) + (digitsToNat fd : ℚ) / (10 ^ fd.length : ℚ)
        some (.jnum (if neg then -base else base), r2)
    | _ => some (.jint (if neg then -intVal else intVal), r1)

mutual

/-- JSON value at the head of `s` (fuelled recursive descent). -/
def parseJVal : Nat → Chars → Option (Json × Chars)
  | 0, _ => none
  | fuel + 1, s =>
    match s.dropWhile jsonWs with
    | [] => none
    | '{' :: rest =>
      match (rest.dropWhile jsonWs) with
      | '}' :: r2 => some (.jobj [], r2)
      | _ => parseJMembers fuel rest []
    | '[' :: rest =>
      match (rest.dropWhile jsonWs) with
      | ']' :: r2 => some (.jarr [], r2)
      | _ => parseJItems fuel rest []
    | '"' :: rest => (parseQString (rest.length + 1) rest).map (fun p => (.jstr p.1, p.2))
    | 't' :: rest => if leadsWith "rue".data rest then some (.jbool true, rest.drop 3) else none
    | 'f' :: rest => if leadsWith "alse".data rest then some (.jbool false, rest.drop 4) else none
    | 'n' :: rest => if leadsWith "ull".data rest then some (.jnull, rest.drop 3) else none
    | other => parseJNumber other

/-- Comma-separated array items, accumulating in order. -/
def parseJItems : Nat → Chars → List Json → Option (Json × Chars)
  | 0, _, _ => none
  | fuel + 1, s, acc => do
    let (v, r) ← parseJVal fuel s
    match r.dropWhile jsonWs with
    | ',' :: r2 => parseJItems fuel r2 (acc ++ [v])
    | ']' :: r2 => some (.jarr (acc ++ [v]), r2)
    | _ => none

/-- Comma-separated object members, accumulating in order. -/
def parseJMembers : Nat → Chars → List (Chars × Json) → Option (Json × Chars)
  | 0, _, _ => none
  | fuel + 1, s, acc =>
    match s.dropWhile jsonWs with
    | '"' :: rest => do
      let (k, r1) ← parseQString (rest.length + 1) rest
      match r1.dropWhile jsonWs with
      | ':' :: r2 => do
        let (v, r3) ← parseJVal fuel r2
        match r3.dropWhile jsonWs with
        | ',' :: r4 => parseJMembers fuel r4 (acc ++ [(k, v)])
        | '}' :: r4 => some (.jobj (acc ++ [(k, v)]), r4)
        | _ => none
      | _ => none
    | _ => none

end

/-- Python `json.loads`: a single JSON document with nothing but
whitespace after it. -/
def jsonLoads (s : Chars) : Option Json :=
  match parseJVal (2 * s.length + 8) s with
  | some (v, rest) => if (rest.dropWhile jsonWs).isEmpty then some v else none
  | none => none

/-- Key lookup in a decoded JSON object (later duplicate keys overwrite
earlier ones, as in a Python dict built by `json.loads`). -/
def jobjFind (k : Chars) (kvs : List (Chars × Json)) : Option Json :=
  (kvs.reverse.find? (fun kv => kv.1 = k)).map (fun kv => kv.2)

/-- Markdown fence stripping of `_analyze_legend_with_vlm`:
`re.sub(r'^```(?:json)?\s*', '', t)` then `re.sub(r'\s*```$', '', t)`,
applied only when the text starts with three backticks. -/
def stripFences (t : Chars) : Chars :=
  if leadsWith "```".data t then
    let t1 := t.drop 3
    let t2 := if leadsWith "json".data t1 then t1.drop 4 else t1
    let t3 := t2.dropWhile pyIsSpace
    if trailsWith "```".data t3 then pyRstrip (t3.take (t3.length - 3)) else t3
  else t

/-- Truncated-JSON recovery of `_analyze_legend_with_vlm`: cut after the
last closing brace; if the result does not already end with a bracket,
strip trailing whitespace and commas and close the array. `none` models
the `last_close <= 0` branch, where no recovery is attempted. -/
def recoverTruncated (raw : Chars) : Option Chars :=
  let lc := rfindChar '}' raw
  if lc > 0 then
    let truncated := raw.take (lc.toNat + 1)
    if trailsWith "]".data (pyRstrip truncated) then some truncated
    else some (pyRstripComma (pyRstrip truncated) ++ '\n' :: "]".data)
  else none

/-- Decode pipeline of `_analyze_legend_with_vlm` after the VLM reply
text is stripped: fence removal, `json.loads`, recovery on failure, and
dict unwrapping; `none` models a raised error. -/
def legendDecode (rawText : Chars) : Option (List Json) :=
  let t := stripFences rawText
  let parsed : Option Json :=
    match jsonLoads t with
    | some v => some v
    | none =>
      match recoverTruncated t with
      | some tr => jsonLoads tr
      | none => none
  match parsed with
  | some (.jobj kvs) =>
    match jobjFind "symbols".data kvs with
    | some (.jarr xs) => some xs
    | some _ => none
    | none =>
      match jobjFind "data".data kvs with
      | some (.jarr xs) => some xs
      | _ => none
  | some (.jarr xs) => some xs
  | _ => none

/- ──────────────────────────────────────────────────────────────
   `app/services/symbol_db_service.py` — validation and cleaning
   ────────────────────────────────────────────────────────────── -/

/-- `SYMBOL_CATEGORIES`. -/
def SYMBOL_CATEGORIES : List Chars :=
  ["PIPING".data, "VALVE".data, "ACTUATOR".data, "ACTUATED_VALVE".data,
   "SAFETY_DEVICE".data, "OTHER".data]

/-- Python regex word character (ASCII). -/
def isWordChar (c : Char) : Bool := c.isUpper || c.isLower || c.isDigit || c == '_'

/-- `pre` at the head of `s` followed by a word boundary (`pre\b`). -/
def boundaryAfter (pre s : Chars) : Bool :=
  leadsWith pre s &&
    (match s.drop pre.length with
     | [] => true
     | c :: _ => !isWordChar c)

/-- `word` at the head of `s` after at least one whitespace character:
the `\s+word` step of several garbage patterns. -/
def wsThen (word s : Chars) : Option Chars :=
  let w := runLen pyIsSpace s
  if w = 0 then none
  else if leadsWith word (s.drop w) then some ((s.drop w).drop word.length) else none

/-- `(NN\"\s*)+$` block iteration. -/
def nnBlocks : Nat → Chars → Bool
  | _, [] => true
  | 0, _ => false
  | fuel + 1, s =>
    if leadsWith "NN\"".data s then nnBlocks fuel ((s.drop 3).dropWhile pyIsSpace)
    else false

/-- `GARBAGE_PATTERNS` matching (each pattern is anchored with `^` and
checked with `re.match(..., re.IGNORECASE)`); `u` is the upper-cased,
already-stripped description. -/
def garbageMatch (u : Chars) : Bool :=
  -- ^[A-K]$
  (match u with | [c] => 'A' ≤ c && c ≤ 'K' | _ => false) ||
  -- ^1[0-6]$|^[1-9]$
  (match u with
   | [c] => '1' ≤ c && c ≤ '9'
   | ['1', c] => '0' ≤ c && c ≤ '6'
   | _ => false) ||
  -- ^(SYMBOL|DESCRIPTION|DISCRIPTION|SYMBOLS?)$
  (u = "SYMBOL".data || u = "DESCRIPTION".data || u = "DISCRIPTION".data || u = "SYMBOLS".data) ||
  -- ^(SHIP NO|CLIENT|DRAWING|REV\b|DATE|SCALE|CHECKED|APPROVED)
  (leadsWith "SHIP NO".data u || leadsWith "CLIENT".data u || leadsWith "DRAWING".data u ||
   boundaryAfter "REV".data u || leadsWith "DATE".data u || leadsWith "SCALE".data u ||
   leadsWith "CHECKED".data u || leadsWith "APPROVED".data u) ||
  -- ^(AA\s*AA|NAN\b|NN\")
  ((leadsWith "AA".data u && leadsWith "AA".data ((u.drop 2).dropWhile pyIsSpace)) ||
   boundaryAfter "NAN".data u || leadsWith "NN\"".data u) ||
  -- ^\s*$
  (u.all pyIsSpace) ||
  -- ^INSTRUMENT$
  (u = "INSTRUMENT".data) ||
  -- ^INSTRUMENT\s+VALVE\s+BODIES
  (leadsWith "INSTRUMENT".data u &&
    (match wsThen "VALVE".data (u.drop 10) with
     | some r => (wsThen "BODIES".data r).isSome
     | none => false)) ||
  -- ^LEGEND SYMBOL
  (leadsWith "LEGEND SYMBOL".data u) ||
  -- ^MOTOR[\-\s]*HELMET
  (leadsWith "MOTOR".data u &&
    leadsWith "HELMET".data ((u.drop 5).dropWhile (fun c => c == '-' || pyIsSpace c))) ||
  -- ^(AA\s+)+
  (leadsWith "AA".data u &&
    (match u.drop 2 with | c :: _ => pyIsSpace c | [] => false)) ||
  -- ^(NN\"\s*)+$
  (!u.isEmpty && nnBlocks u.length u) ||
  -- ^PIPING SYMBOLS
  (leadsWith "PIPING SYMBOLS".data u) ||
  -- ^VALVE SYMBOLS
  (leadsWith "VALVE SYMBOLS".data u) ||
  -- ^ACTUATORS?$
  (u = "ACTUATOR".data || u = "ACTUATORS".data) ||
  -- ^ACTUATED\s+VALVES?$
  (leadsWith "ACTUATED".data u &&
    (match wsThen "VALVE".data (u.drop 8) with
     | some r => r.isEmpty || r = "S".data
     | none => false)) ||
  -- ^SAFETY\s+DEVICE
  (leadsWith "SAFETY".data u && (wsThen "DEVICE".data (u.drop 6)).isSome) ||
  -- ^OTHER\s+SYMBOLS?
  (leadsWith "OTHER".data u && (wsThen "SYMBOL".data (u.drop 5)).isSome)

/-- Legend symbol row (only the fields `_validate_and_clean` touches;
`None` values of the two text fields are modelled by the empty string,
matching the code's `(... or "")` coercions). -/
structure RawSymbol where
  symbol_name : Chars := []
  description : Chars := []
  category : Chars := []
deriving DecidableEq

/-- Normalised category key: `(sym.get("category") or "OTHER")` upper-
cased, stripped, with spaces replaced by underscores. -/
def normCatKey (c : Chars) : Chars :=
  (pyStrip (pyUpper (if c.isEmpty then "OTHER".data else c))).map
    (fun ch => if ch == ' ' then '_' else ch)

/-- Category normalisation step of `_validate_and_clean`. -/
def normCat (c : Chars) : Chars :=
  if SYMBOL_CATEGORIES.contains (normCatKey c) then normCatKey c else "OTHER".data

/-- Row normalisation applied to every surviving symbol. -/
def cleanSym (sym : RawSymbol) : RawSymbol :=
  { symbol_name := pyStrip sym.symbol_name,
    description := pyStrip sym.description,
    category := normCat sym.category }

/-- `_validate_and_clean` with the `seen` accumulator made explicit
(`desc = pyStrip sym.description` and `desc_key = pyUpper desc` are
inlined). -/
def validateAndCleanAux : List RawSymbol → List Chars → List RawSymbol
  | [], _ => []
  | sym :: rest, seen =>
    if (pyStrip sym.description).length < 3 then validateAndCleanAux rest seen
    else if garbageMatch (pyUpper (pyStrip sym.description)) then validateAndCleanAux rest seen
    else if seen.contains (pyUpper (pyStrip sym.description)) then validateAndCleanAux rest seen
    else cleanSym sym :: validateAndCleanAux rest (pyUpper (pyStrip sym.description) :: seen)

/-- `_validate_and_clean(symbols)`. -/
def validateAndClean (syms : List RawSymbol) : List RawSymbol :=
  validateAndCleanAux syms []

/- ──────────────────────────────────────────────────────────────
   `app/services/vlm_bom_service.py` — `_merge_text_and_vlm`
   ────────────────────────────────────────────────────────────── -/

/-- Pipe-piece entry of the VLM page record. -/
structure PieceEntry where
  id : Chars := []
  size : Chars := []
  schedule : Chars := []
  material : Chars := []
  source : Chars := []
deriving DecidableEq

/-- Dimension entry of a page record. -/
structure DimEntry where
  length_mm : ℚ := 0
  source : Chars := []
deriving DecidableEq

/-- Text-extraction page record fields consumed by the merge. -/
structure TextPageData where
  pipe_pieces : List Chars := []
  weld_count : Int := 0
  dimensions_mm : List ℚ := []
deriving DecidableEq

/-- VLM page record fields touched by the merge (`Option` models key
presence in the underlying dict). -/
structure VlmPageData where
  pipe_pieces : List PieceEntry := []
  total_weld_count : Option Int := none
  weld_count_text : Option Int := none
  weld_count_vlm : Option Int := none
  dimensions_mm : List DimEntry := []
deriving DecidableEq

/-- `_merge_text_and_vlm(text_data, vlm_data)`.  The Python code iterates
a set difference whose order is unspecified; missing pieces are appended
here in first-occurrence order of the text extraction. -/
def mergeTextAndVlm (t : TextPageData) (v : VlmPageData) : VlmPageData :=
  let vIds := v.pipe_pieces.map PieceEntry.id
  let missing := (dedupFirst t.pipe_pieces).filter (fun p => !vIds.contains p)
  let tw := t.weld_count
  let vw := v.total_weld_count.getD 0
  { pipe_pieces :=
      if !missing.isEmpty then
        v.pipe_pieces ++ missing.map (fun mp => { id := mp, source := "text_extraction".data })
      else v.pipe_pieces,
    weld_count_text := if tw > 0 && vw > 0 then some tw else v.weld_count_text,
    weld_count_vlm := if tw > 0 && vw > 0 then some vw else v.weld_count_vlm,
    total_weld_count := if tw > 0 && vw > 0 then some (max tw vw) else v.total_weld_count,
    dimensions_mm :=
      if !t.dimensions_mm.isEmpty && v.dimensions_mm.isEmpty then
        t.dimensions_mm.map (fun d => { length_mm := d, source := "text".data })
      else v.dimensions_mm }

/- ──────────────────────────────────────────────────────────────
   `app/core/llm_client.py`
   ────────────────────────────────────────────────────────────── -/

/-- Configured API keys (empty string = unset, as in `config.py`). -/
structure LlmConfig where
  openai_key : Chars := []
  anthropic_key : Chars := []
  google_key : Chars := []
deriving DecidableEq

/-- Outcome oracle for the three provider calls: `some r` is a normal
response, `none` a raised exception. -/
structure LlmOutcomes where
  openai : Option Chars := none
  anthropic : Option Chars := none
  gemini : Option Chars := none
deriving DecidableEq

/-- The fixed apology returned when no provider answers. -/
def FALLBACK_MSG : Chars := "AI 서비스에 연결할 수 없습니다. API 키를 확인해주세요.".data

/-- Gemini leg of `llm_chat`. -/
def llmChatGemini (cfg : LlmConfig) (out : LlmOutcomes) : Chars :=
  if !cfg.google_key.isEmpty then
    match out.gemini with
    | some resp => resp
    | none => FALLBACK_MSG
  else FALLBACK_MSG

/-- Claude leg of `llm_chat`. -/
def llmChatAnthropic (cfg : LlmConfig) (out : LlmOutcomes) : Chars :=
  if !cfg.anthropic_key.isEmpty then
    match out.anthropic with
    | some resp => resp
    | none => llmChatGemini cfg out
  else llmChatGemini cfg out

/-- `llm_chat` from `llm_client.py`: OpenAI, then Claude, then Gemini,
each guarded by its key and its `try`/`except`. -/
def llmChat (cfg : LlmConfig) (out : LlmOutcomes) : Chars :=
  if !cfg.openai_key.isEmpty then
    match out.openai with
    | some resp => resp
    | none => llmChatAnthropic cfg out
  else llmChatAnthropic cfg out

/- ──────────────────────────────────────────────────────────────
   `app/routers/upload.py`
   ────────────────────────────────────────────────────────────── -/

/-- `PurePosixPath(filename).name`. -/
def lastComponent (s : Chars) : Chars := (s.reverse.takeWhile (· ≠ '/')).reverse

/-- `PurePosixPath(filename).suffix`: the final extension of the last
path component; empty for names whose only dot is leading or trailing. -/
def pySuffix (s : Chars) : Chars :=
  let nm := lastComponent s
  let i := rfindChar '.' nm
  if 0 < i && i < (nm.length : Int) - 1 then nm.drop i.toNat else []

/-- `_detect_file_type(filename)` from `upload.py`. -/
def detectFileType (filename : Chars) : Chars :=
  let ext := pyLower (pySuffix filename)
  let nameL := pyLower filename
  if ext = ".dxf".data then "dxf".data
  else if ext = ".pdf".data then
    if containsSub "pid".data nameL || containsSub "p&id".data nameL ||
        containsSub "valve".data nameL then "pid".data
    else if containsSub "bom".data nameL || containsSub "pipe".data nameL then "pipe_bom".data
    else "pdf".data
  else "unknown".data

/-- Validation part of the `upload_file` endpoint: absent filename or an
`unknown` kind raise `HTTPException(400, ...)`; otherwise the detected
kind is accepted. -/
def uploadCheck (filename : Chars) : Except Chars Chars :=
  if filename.isEmpty then .error "파일명이 없습니다".data
  else
    let ft := detectFileType filename
    if ft = "unknown".data then .error ("지원하지 않는 파일 형식입니다: ".data ++ filename)
    else .ok ft


/- ──────────────────────────────────────────────────────────────
   Default records and concrete example inputs used by the theorems
   ────────────────────────────────────────────────────────────── -/

/-- Default BOM row (used with `List.getD`). -/
def dCleanBomItem : CleanBomItem :=
  { letter_code := [], quantity := [], size_inches := [], description := [],
    material_spec := [], weight_kg := 0, remarks := [] }

/-- Default comparison row (used with `List.getD`). -/
def dCompItem : CompItem :=
  { bom_letter := [], bom_description := [], bom_quantity := [], bom_size := [],
    drawing_component := [], drawing_quantity := none, match_status := [],
    quantity_diff := 0, notes := [] }

/-- Default page input (used with `List.getD`). -/
def dPipePage : PipePage := { text := [], blocks := [] }

/-- Default extractor record (used with `List.getD`). -/
def dPipePageRec : PipePageRec :=
  { page := 0, pipe_pieces := [], weld_count := 0, weld_items := [],
    dimensions_mm := [], other_dims := [], has_loose := false,
    revision_notes := [], title_block := [], table_text := [], is_cover := false }

/-- Example BOM row: a welding-neck flange with quantity 2. -/
def itemFlange : CleanBomItem :=
  { letter_code := "F".data, quantity := "2".data, size_inches := [],
    description := "WN FLANGE RF".data, material_spec := [], weight_kg := 0, remarks := [] }

/-- Example BOM row: a tee with quantity 1 (matched by no drawing group). -/
def itemTee : CleanBomItem :=
  { letter_code := "C".data, quantity := "1".data, size_inches := [],
    description := "EQUAL TEE".data, material_spec := [], weight_kg := 0, remarks := [] }

/-- Example drawing component: one `flange:wn_flange` group of quantity 2. -/
def compFlange : DrawComp :=
  { ctype := "flange".data, subtype := "wn_flange".data, quantity := .vint 2 }

/-- Example comparison page: one matching and one BOM-only row. -/
def pdC2 : ComparePageData := { bom_table := [itemFlange, itemTee], components := [compFlange] }

/-- Example comparison page: a single exactly-matching row. -/
def pdC5 : ComparePageData := { bom_table := [itemFlange], components := [compFlange] }

/-- The comparison row `compare_single_page` emits for `itemFlange` on `pdC5`. -/
def ciC5 : CompItem :=
  { bom_letter := "F".data, bom_description := "WN FLANGE RF".data,
    bom_quantity := "2".data, bom_size := [],
    drawing_component := "flange:wn_flange".data, drawing_quantity := some 2,
    match_status := "MATCH".data, quantity_diff := 0, notes := [] }

/-- Full comparison result for `pdC5`. -/
def resC5 : CompareResult :=
  { page := 0, drawing_number := [], line_no := [],
    comparison_items := [ciC5],
    summary := { total_bom_items := 1, comparable_items := 1, matched := 1,
                 mismatched := 0, bom_only := 0, drawing_only := 0,
                 na_items := 0, match_rate := 100 } }

/-- Comparison result of the empty page. -/
def resEmpty : CompareResult :=
  { page := 0, drawing_number := [], line_no := [],
    comparison_items := [],
    summary := { total_bom_items := 0, comparable_items := 0, matched := 0,
                 mismatched := 0, bom_only := 0, drawing_only := 0,
                 na_items := 0, match_rate := 0 } }

/-- A legend VLM reply truncated in the middle of its third object. -/
def legendRawEx : Chars :=
  ("[\x7b\"symbol_name\": \"V1\", \"description\": \"GATE VALVE\"\x7d,\n \x7b\"symbol_name\": \"V2\", \"description\": \"BALL VALVE\"\x7d,\n \x7b\"symbol_name\": \"V3\", \"descri").data

/-- The recovered text: prefix through the last brace plus a closing bracket. -/
def legendRecoveredEx : Chars :=
  ("[\x7b\"symbol_name\": \"V1\", \"description\": \"GATE VALVE\"\x7d,\n \x7b\"symbol_name\": \"V2\", \"description\": \"BALL VALVE\"\x7d\n]").data

/-- First complete object of the truncated reply. -/
def legendSym1 : Json :=
  .jobj [("symbol_name".data, .jstr "V1".data), ("description".data, .jstr "GATE VALVE".data)]

/-- Second complete object of the truncated reply. -/
def legendSym2 : Json :=
  .jobj [("symbol_name".data, .jstr "V2".data), ("description".data, .jstr "BALL VALVE".data)]

/-- Example legend rows: a duplicate (up to case/stripping), an unknown
category, and a garbage header row. -/
def symsC8 : List RawSymbol :=
  [{ symbol_name := "SN1".data, description := " Gate Valve ".data, category := "valve".data },
   { description := "GATE VALVE".data, category := "VALVE".data },
   { description := "ball valve".data, category := "weird".data },
   { description := "PIPING SYMBOLS".data, category := [] }]

/- ──────────────────────────────────────────────────────────────
   Helper lemmas
   ────────────────────────────────────────────────────────────── -/

theorem mapOptM_get? {α β : Type} (f : α → Option β) :
    ∀ (l : List α) (rs : List β), mapOptM f l = some rs →
      ∀ i : Nat, rs.get? i = (l.get? i).bind f := by
  intro l
  induction l with
  | nil =>
    intro rs h i
    have h' : some ([] : List β) = some rs := h
    injection h' with h''
    subst h''
    simp
  | cons x xs ih =>
    intro rs h i
    have h' : (f x).bind (fun y => (mapOptM f xs).bind (fun ys => some (y :: ys))) = some rs := h
    rcases Option.bind_eq_some.mp h' with ⟨y, hf, h2⟩
    rcases Option.bind_eq_some.mp h2 with ⟨ys, hm, h3⟩
    injection h3 with h3
    subst h3
    cases i with
    | zero => simp [hf]
    | succ j => simpa using ih ys hm j

theorem mapOptM_length {α β : Type} (f : α → Option β) :
    ∀ (l : List α) (rs : List β), mapOptM f l = some rs → rs.length = l.length := by
  intro l
  induction l with
  | nil =>
    intro rs h
    have h' : some ([] : List β) = some rs := h
    injection h' with h''
    subst h''
    rfl
  | cons x xs ih =>
    intro rs h
    have h' : (f x).bind (fun y => (mapOptM f xs).bind (fun ys => some (y :: ys))) = some rs := h
    rcases Option.bind_eq_some.mp h' with ⟨y, hf, h2⟩
    rcases Option.bind_eq_some.mp h2 with ⟨ys, hm, h3⟩
    injection h3 with h3
    subst h3
    simp [ih ys hm]

theorem mem_insertStable {α : Type} (le : α → α → Bool) (x : α) :
    ∀ (l : List α) (a : α), a ∈ insertStable le x l ↔ a = x ∨ a ∈ l := by
  intro l
  induction l with
  | nil => intro a; simp [insertStable]
  | cons y ys ih =>
    intro a
    by_cases h : le y x = true
    · simp only [insertStable, if_pos h, List.mem_cons, ih]
      try tauto
    · simp only [insertStable, if_neg h, List.mem_cons]
      try tauto

theorem pairwise_insertStable {α : Type} (le : α → α → Bool)
    (htrans : ∀ a b c, le a b = true → le b c = true → le a c = true)
    (htot : ∀ a b, (le a b || le b a) = true) :
    ∀ (l : List α) (x : α), l.Pairwise (fun a b => le a b = true) →
      (insertStable le x l).Pairwise (fun a b => le a b = true) := by
  intro l
  induction l with
  | nil => intro x _; simp [insertStable]
  | cons y ys ih =>
    intro x hp
    rcases List.pairwise_cons.mp hp with ⟨hy, hys⟩
    by_cases h : le y x = true
    · simp only [insertStable, if_pos h]
      refine List.pairwise_cons.mpr ⟨?_, ih x hys⟩
      intro b hb
      rcases (mem_insertStable le x ys b).mp hb with rfl | hbys
      · exact h
      · exact hy b hbys
    · simp only [insertStable, if_neg h]
      have hxy : le x y = true := by
        have := htot y x
        rcases Bool.or_eq_true_iff.mp this with h1 | h1
        · exact absurd h1 h
        · exact h1
      refine List.pairwise_cons.mpr ⟨?_, hp⟩
      intro b hb
      rcases List.mem_cons.mp hb with rfl | hbys
      · exact hxy
      · exact htrans x y b hxy (hy b hbys)

theorem pairwise_foldl_insertStable {α : Type} (le : α → α → Bool)
    (htrans : ∀ a b c, le a b = true → le b c = true → le a c = true)
    (htot : ∀ a b, (le a b || le b a) = true) :
    ∀ (xs acc : List α), acc.Pairwise (fun a b => le a b = true) →
      (xs.foldl (fun acc x => insertStable le x acc) acc).Pairwise (fun a b => le a b = true) := by
  intro xs
  induction xs with
  | nil => intro acc h; simpa using h
  | cons x xs ih =>
    intro acc h
    exact ih _ (pairwise_insertStable le htrans htot acc x h)

theorem pairwise_stableSortBy {α : Type} (le : α → α → Bool)
    (htrans : ∀ a b c, le a b = true → le b c = true → le a c = true)
    (htot : ∀ a b, (le a b || le b a) = true) (xs : List α) :
    (stableSortBy le xs).Pairwise (fun a b => le a b = true) :=
  pairwise_foldl_insertStable le htrans htot xs [] (by simp)

theorem mem_foldl_insertStable {α : Type} (le : α → α → Bool) :
    ∀ (xs acc : List α) (a : α),
      a ∈ xs.foldl (fun acc x => insertStable le x acc) acc ↔ a ∈ acc ∨ a ∈ xs := by
  intro xs
  induction xs with
  | nil => intro acc a; simp
  | cons x xs ih =>
    intro acc a
    simp only [List.foldl_cons, ih, mem_insertStable, List.mem_cons]
    tauto

theorem mem_stableSortBy {α : Type} (le : α → α → Bool) (xs : List α) (a : α) :
    a ∈ stableSortBy le xs ↔ a ∈ xs := by
  simp [stableSortBy, mem_foldl_insertStable]

theorem cutLe_trans : ∀ a b c, cutLe a b = true → cutLe b c = true → cutLe a c = true := by
  intro a b c
  simp only [cutLe, decide_eq_true_eq]
  omega

theorem cutLe_total : ∀ a b, (cutLe a b || cutLe b a) = true := by
  intro a b
  simp only [cutLe, Bool.or_eq_true, decide_eq_true_eq]
  omega

theorem cutNoVal_nonneg (c : RawCut) (n : Nat) : 0 ≤ cutNoVal c n := by
  unfold cutNoVal
  split
  · exact Int.ofNat_nonneg _
  · positivity

theorem explicitCuts_nonneg :
    ∀ (cuts : List RawCut) (acc res : List CutLen),
      (∀ c ∈ acc, 0 ≤ c.cut_no) → explicitCuts cuts acc = some res →
      ∀ c ∈ res, 0 ≤ c.cut_no := by
  intro cuts
  induction cuts with
  | nil =>
    intro acc res hacc h
    have h' : some acc = some res := h
    injection h' with h''
    subst h''
    exact hacc
  | cons c rest ih =>
    intro acc res hacc h
    have h' : (cutLengthVal c).bind
        (fun lq => if lq > 0 then
            explicitCuts rest (acc ++ [⟨cutNoVal c acc.length, lq⟩])
          else explicitCuts rest acc) = some res := h
    rcases Option.bind_eq_some.mp h' with ⟨lq, _, h2⟩
    by_cases hpos : lq > 0
    · rw [if_pos hpos] at h2
      refine ih _ _ ?_ h2
      intro d hd
      rcases List.mem_append.mp hd with hd | hd
      · exact hacc d hd
      · have : d = (⟨cutNoVal c acc.length, lq⟩ : CutLen) := by simpa using hd
        subst this
        exact cutNoVal_nonneg c acc.length
    · rw [if_neg hpos] at h2
      exact ih _ _ hacc h2

theorem splitBomCuts_nonneg :
    ∀ (bom : List CleanBomItem) (accC : List CutLen) (accB : List CleanBomItem),
      (∀ c ∈ accC, 0 ≤ c.cut_no) →
      ∀ c ∈ (splitBomCuts bom accC accB).1, 0 ≤ c.cut_no := by
  intro bom
  induction bom with
  | nil =>
    intro accC accB hacc c hc
    exact hacc c hc
  | cons it rest ih =>
    intro accC accB hacc c hc
    rcases hcm : cutMatch it.description with _ | ⟨v, g2⟩
    · rcases hlm : mmLeadVal it.letter_code with _ | w
      · have heq : splitBomCuts (it :: rest) accC accB = splitBomCuts rest accC (accB ++ [it]) := by
          simp only [splitBomCuts, hcm, hlm]
        rw [heq] at hc
        exact ih _ _ hacc c hc
      · have heq : splitBomCuts (it :: rest) accC accB
            = splitBomCuts rest (accC ++ [⟨(accC.length + 1 : Int), (w : ℚ)⟩]) accB := by
          simp only [splitBomCuts, hcm, hlm]
        rw [heq] at hc
        refine ih _ _ ?_ c hc
        intro d hd
        rcases List.mem_append.mp hd with hd | hd
        · exact hacc d hd
        · have : d = (⟨(accC.length + 1 : Int), (w : ℚ)⟩ : CutLen) := by simpa using hd
          subst this
          positivity
    · have heq : splitBomCuts (it :: rest) accC accB
          = splitBomCuts rest (accC ++ [⟨bomCutNo g2 accC.length, (v : ℚ)⟩]) accB := by
        simp only [splitBomCuts, hcm]
      rw [heq] at hc
      refine ih _ _ ?_ c hc
      intro d hd
      rcases List.mem_append.mp hd with hd | hd
      · exact hacc d hd
      · have hde : d = (⟨bomCutNo g2 accC.length, (v : ℚ)⟩ : CutLen) := by simpa using hd
        subst hde
        rcases g2 with _ | g
        · simp only [bomCutNo]
          positivity
        · exact Int.ofNat_nonneg g

/- ──────────────────────────────────────────────────────────────
   Claim theorems
   ────────────────────────────────────────────────────────────── -/

/-- C1: the table-pass post-processing pipeline is claimed to move the
BOM row `{description: "736 MM <1>"}` into `cut_lengths` as
`{cut_no: 1, length_mm: 736}`.  In fact `_postprocess_bom_items` deletes
the row before `_postprocess_cut_lengths` (whose reclassification logic,
exercised in the second conjunct, would indeed produce that entry) ever
sees it, so the processed page has the row removed from `bom_table` but
`cut_lengths` stays empty. -/
theorem claim_C1_cut_row_dropped_not_reclassified :
    tablePostprocess [{ description := "736 MM <1>".data }] [] = some ([], []) ∧
    postprocessCutLengths []
      [{ letter_code := [], quantity := [], size_inches := [],
         description := "736 MM <1>".data, material_spec := [],
         weight_kg := 0, remarks := [] }]
      = some ([⟨1, 736⟩], []) :=
  ⟨by decide, by decide⟩

/-- C4 (amended): the post-processed `cut_lengths` list is sorted in
non-decreasing order of cut number and every cut number is a
non-negative integer.  As stated the claim is false: cut numbers need be
neither strictly positive nor pairwise distinct (see the
counterexample). -/
theorem claim_C4_cut_lengths_sorted_nonneg (cuts : List RawCut) (bom : List CleanBomItem)
    (res : List CutLen × List CleanBomItem)
    (h : postprocessCutLengths cuts bom = some res) :
    res.1.Pairwise (fun a b => a.cut_no ≤ b.cut_no) ∧ ∀ c ∈ res.1, 0 ≤ c.cut_no := by
  have h' : (explicitCuts cuts []).bind
      (fun c1 => some (stableSortBy cutLe (splitBomCuts bom c1 []).1,
        (splitBomCuts bom c1 []).2)) = some res := h
  rcases Option.bind_eq_some.mp h' with ⟨c1, hc1, h2⟩
  injection h2 with h2
  subst h2
  constructor
  · have hp := pairwise_stableSortBy cutLe cutLe_trans cutLe_total (splitBomCuts bom c1 []).1
    exact hp.imp (fun hab => by simpa [cutLe] using hab)
  · intro c hc
    have hc' := (mem_stableSortBy cutLe _ c).mp hc
    exact splitBomCuts_nonneg bom c1 []
      (explicitCuts_nonneg cuts [] c1 (by simp) hc1) c hc'

/-- C4 witness: a concrete run of the theorem. -/
theorem claim_C4_cut_lengths_sorted_nonneg_witness :
    ([⟨5, 10⟩] : List CutLen).Pairwise (fun a b => a.cut_no ≤ b.cut_no) ∧
    (0 : Int) ≤ (⟨5, 10⟩ : CutLen).cut_no := by
  have h := claim_C4_cut_lengths_sorted_nonneg
    [{ cut_no := .vint 5, length_mm := .vint 10 }] [] ([⟨5, 10⟩], []) (by decide)
  exact ⟨h.1, h.2 ⟨5, 10⟩ (by simp)⟩

/-- C4 counterexample: an explicit cut list whose processed output has a
zero cut number (from string `cut_no` `"0"`) and a duplicated cut number
5, refuting strict positivity and pairwise distinctness as claimed. -/
theorem claim_C4_counterexample :
    postprocessCutLengths
      [{ cut_no := .vint 5, length_mm := .vint 10 },
       { cut_no := .vstr "0".data, length_mm := .vint 3 },
       { cut_no := .vint 5, length_mm := .vint 20 }] []
      = some ([⟨0, 3⟩, ⟨5, 10⟩, ⟨5, 20⟩], []) ∧
    ¬ (∀ c ∈ ([⟨0, 3⟩, ⟨5, 10⟩, ⟨5, 20⟩] : List CutLen), 0 < c.cut_no) ∧
    ¬ (([⟨0, 3⟩, ⟨5, 10⟩, ⟨5, 20⟩] : List CutLen).Pairwise
        (fun a b => a.cut_no ≠ b.cut_no)) :=
  ⟨by decide, by decide, by decide⟩

set_option maxRecDepth 8000 in
/-- C6: the truncated legend reply is not directly parseable; recovery
truncates at the last closing brace, appends the array close, and the
parse of the recovered text yields exactly the two complete leading
objects, which is also what the whole decode pipeline returns. -/
theorem claim_C6_truncated_json_recovery :
    jsonLoads legendRawEx = none ∧
    recoverTruncated legendRawEx = some legendRecoveredEx ∧
    jsonLoads legendRecoveredEx = some (.jarr [legendSym1, legendSym2]) ∧
    legendDecode legendRawEx = some [legendSym1, legendSym2] :=
  ⟨rfl, by decide, rfl, rfl⟩

/-- C3 (amended): only the first page is ever tested for cover status.
A first page with no valid pipe-piece IDs and a cover keyword emits
`is_cover = true` with every list field empty; every later page emits
`is_cover = false` regardless of its content.  As stated ("regardless of
the page's position") the claim is false — see the counterexample. -/
theorem claim_C3_cover_only_first_page (pages : List PipePage) (i : Nat)
    (hi : i < pages.length) :
    (i ≠ 0 → ((extractPipeBom pages).getD i dPipePageRec).is_cover = false) ∧
    (i = 0 → isCoverPage (pages.getD i dPipePage).text = true →
      (extractPipeBom pages).getD i dPipePageRec =
        { page := 1, pipe_pieces := [], weld_count := 0, weld_items := [],
          dimensions_mm := [], other_dims := [], has_loose := false,
          revision_notes := [], title_block := [], table_text := [], is_cover := true }) := by
  have hlen : (extractPipeBom pages).length = pages.length := by
    simp [extractPipeBom]
  have hi2 : i < (extractPipeBom pages).length := by rw [hlen]; exact hi
  have hget : (extractPipeBom pages).getD i dPipePageRec
      = extractPageRec i (pages.getD i dPipePage) := by
    rw [List.getD_eq_getElem _ _ hi2, List.getD_eq_getElem _ _ hi]
    simp [extractPipeBom]
  rw [hget]
  constructor
  · intro h0
    simp [extractPageRec, h0]
  · intro h0 hcov
    subst h0
    rw [List.getD_eq_getElem _ _ hi] at hcov
    rw [List.getD_eq_getElem _ _ hi]
    simp [extractPageRec, hcov]

/-- C3 witness: a single-page document whose page holds only `INDEX`. -/
theorem claim_C3_cover_only_first_page_witness :
    (extractPipeBom [⟨"INDEX".data, []⟩]).getD 0 dPipePageRec =
      { page := 1, pipe_pieces := [], weld_count := 0, weld_items := [],
        dimensions_mm := [], other_dims := [], has_loose := false,
        revision_notes := [], title_block := [], table_text := [], is_cover := true } :=
  (claim_C3_cover_only_first_page [⟨"INDEX".data, []⟩] 0 (by decide)).2 rfl (by decide)

/-- C3 counterexample: an `INDEX` page in second position (no valid
pipe-piece IDs, cover keyword present) still gets `is_cover = false`,
because the extractor only calls `_is_cover_page` on page index 0. -/
theorem claim_C3_counterexample :
    (extractPipeBom [⟨"PG119-1".data, []⟩, ⟨"INDEX".data, []⟩]).map PipePageRec.is_cover
      = [false, false] ∧
    isCoverPage "INDEX".data = true :=
  ⟨by decide, by decide⟩

/-- C7 (amended): only when the text-extracted count and the VLM count
are both strictly positive does the merge store `weld_count_text` and
`weld_count_vlm` and report their maximum; otherwise all three weld
fields are left exactly as in the VLM record.  As stated ("for every
merge") the claim is false — see the counterexample. -/
theorem claim_C7_weld_count_merge (t : TextPageData) (v : VlmPageData) :
    (0 < t.weld_count → 0 < v.total_weld_count.getD 0 →
      (mergeTextAndVlm t v).weld_count_text = some t.weld_count ∧
      (mergeTextAndVlm t v).weld_count_vlm = some (v.total_weld_count.getD 0) ∧
      (mergeTextAndVlm t v).total_weld_count
        = some (max t.weld_count (v.total_weld_count.getD 0))) ∧
    (¬ (0 < t.weld_count ∧ 0 < v.total_weld_count.getD 0) →
      (mergeTextAndVlm t v).total_weld_count = v.total_weld_count ∧
      (mergeTextAndVlm t v).weld_count_text = v.weld_count_text ∧
      (mergeTextAndVlm t v).weld_count_vlm = v.weld_count_vlm) := by
  constructor
  · intro h1 h2
    have hcond : (t.weld_count > 0 && v.total_weld_count.getD 0 > 0) = true := by
      simp only [Bool.and_eq_true, decide_eq_true_eq]
      exact ⟨h1, h2⟩
    simp [mergeTextAndVlm, hcond]
  · intro h
    have hcond : (t.weld_count > 0 && v.total_weld_count.getD 0 > 0) = false := by
      by_cases ha : 0 < t.weld_count
      · by_cases hb : 0 < v.total_weld_count.getD 0
        · exact absurd ⟨ha, hb⟩ h
        · simp [hb]
      · simp [ha]
    simp [mergeTextAndVlm, hcond]

/-- C7 witness: both counts positive, maximum reported. -/
theorem claim_C7_weld_count_merge_witness :
    (mergeTextAndVlm { weld_count := 3 } { total_weld_count := some 5 }).weld_count_text
      = some 3 ∧
    (mergeTextAndVlm { weld_count := 3 } { total_weld_count := some 5 }).weld_count_vlm
      = some 5 ∧
    (mergeTextAndVlm { weld_count := 3 } { total_weld_count := some 5 }).total_weld_count
      = some (max 3 5) := by
  have h := (claim_C7_weld_count_merge { weld_count := 3 } { total_weld_count := some 5 }).1
    (by decide) (by decide)
  exact ⟨h.1, h.2.1, h.2.2⟩

/-- C7 counterexample: a positive text count against a zero VLM count.
The merged record keeps `total_weld_count = 0` (not the maximum 3) and
stores neither `weld_count_text` nor `weld_count_vlm`. -/
theorem claim_C7_counterexample :
    (mergeTextAndVlm { weld_count := 3 } { total_weld_count := some 0 }).total_weld_count
      = some 0 ∧
    (mergeTextAndVlm { weld_count := 3 } { total_weld_count := some 0 }).weld_count_text
      = none ∧
    (mergeTextAndVlm { weld_count := 3 } { total_weld_count := some 0 }).weld_count_vlm
      = none ∧
    (0 : Int) ≠ max 3 0 :=
  ⟨by decide, by decide, by decide, by decide⟩

/-- C9: `llm_chat` consults OpenAI, Claude and Gemini in that order,
skips providers whose key is unset, returns the first non-erroring
response, and otherwise the fixed apology; being a total function of the
call outcomes, it never propagates a provider exception. -/
theorem claim_C9_provider_fallback (cfg : LlmConfig) (out : LlmOutcomes) :
    llmChat cfg out =
      (([(cfg.openai_key, out.openai), (cfg.anthropic_key, out.anthropic),
         (cfg.google_key, out.gemini)].filterMap
          (fun p => if p.1.isEmpty then none else p.2)).head?).getD FALLBACK_MSG := by
  rcases cfg with ⟨ko, ka, kg⟩
  rcases out with ⟨oo, oa, og⟩
  cases ko <;> cases ka <;> cases kg <;> cases oo <;> cases oa <;> cases og <;>
    simp [llmChat, llmChatAnthropic, llmChatGemini]

/-- C10: file-kind detection is extension-first; `.dxf` always wins,
P&ID name hints beat BOM hints on `.pdf`, hint-free `.pdf` stays
generic, and any other extension is `unknown`, which the upload
endpoint rejects. -/
theorem claim_C10_file_type_detection :
    (∀ f : Chars, pyLower (pySuffix f) = ".dxf".data → detectFileType f = "dxf".data) ∧
    (∀ f : Chars, pyLower (pySuffix f) = ".pdf".data →
      (containsSub "pid".data (pyLower f) || containsSub "p&id".data (pyLower f) ||
        containsSub "valve".data (pyLower f)) = true →
      detectFileType f = "pid".data) ∧
    (∀ f : Chars, pyLower (pySuffix f) = ".pdf".data →
      (containsSub "pid".data (pyLower f) || containsSub "p&id".data (pyLower f) ||
        containsSub "valve".data (pyLower f)) = false →
      (containsSub "bom".data (pyLower f) || containsSub "pipe".data (pyLower f)) = true →
      detectFileType f = "pipe_bom".data) ∧
    (∀ f : Chars, pyLower (pySuffix f) = ".pdf".data →
      (containsSub "pid".data (pyLower f) || containsSub "p&id".data (pyLower f) ||
        containsSub "valve".data (pyLower f)) = false →
      (containsSub "bom".data (pyLower f) || containsSub "pipe".data (pyLower f)) = false →
      detectFileType f = "pdf".data) ∧
    (∀ f : Chars, pyLower (pySuffix f) ≠ ".dxf".data → pyLower (pySuffix f) ≠ ".pdf".data →
      detectFileType f = "unknown".data ∧ ∀ ft, uploadCheck f ≠ .ok ft) := by
  refine ⟨?_, ?_, ?_, ?_, ?_⟩
  · intro f h
    simp [detectFileType, h]
  · intro f h hp
    simp +decide [detectFileType, h, hp]
  · intro f h hp hb
    simp +decide [detectFileType, h, hp, hb]
  · intro f h hp hb
    simp +decide [detectFileType, h, hp, hb]
  · intro f h1 h2
    have hdet : detectFileType f = "unknown".data := by
      simp [detectFileType, h1, h2]
    refine ⟨hdet, ?_⟩
    intro ft
    cases hf : f.isEmpty <;> simp [uploadCheck, hf, hdet]

/-- C10 witness: concrete filenames for each detection branch. -/
theorem claim_C10_file_type_detection_witness :
    detectFileType "BOM_pipe_model.DXF".data = "dxf".data ∧
    detectFileType "pipe_BOM_PID_v2.pdf".data = "pid".data ∧
    detectFileType "pipe_bom_list.PDF".data = "pipe_bom".data ∧
    detectFileType "drawing.pdf".data = "pdf".data ∧
    detectFileType "notes.docx".data = "unknown".data ∧
    uploadCheck "notes.docx".data ≠ .ok "pdf".data := by
  have h := claim_C10_file_type_detection
  exact ⟨h.1 _ (by decide), h.2.1 _ (by decide) (by decide),
         h.2.2.1 _ (by decide) (by decide) (by decide),
         h.2.2.2.1 _ (by decide) (by decide) (by decide),
         (h.2.2.2.2 _ (by decide) (by decide)).1,
         (h.2.2.2.2 _ (by decide) (by decide)).2 _⟩

theorem normCat_mem (c : Chars) : normCat c ∈ SYMBOL_CATEGORIES := by
  unfold normCat
  by_cases h : SYMBOL_CATEGORIES.contains (normCatKey c) = true
  · rw [if_pos h]
    simpa using h
  · rw [if_neg h]
    decide

theorem validateAux_cat :
    ∀ (syms : List RawSymbol) (seen : List Chars),
      ∀ s ∈ validateAndCleanAux syms seen, s.category ∈ SYMBOL_CATEGORIES := by
  intro syms
  induction syms with
  | nil => intro seen s hs; simp [validateAndCleanAux] at hs
  | cons sym rest ih =>
    intro seen s hs
    by_cases h1 : (pyStrip sym.description).length < 3
    · rw [validateAndCleanAux, if_pos h1] at hs
      exact ih seen s hs
    · by_cases h2 : garbageMatch (pyUpper (pyStrip sym.description)) = true
      · rw [validateAndCleanAux, if_neg h1, if_pos h2] at hs
        exact ih seen s hs
      · by_cases h3 : seen.contains (pyUpper (pyStrip sym.description)) = true
        · rw [validateAndCleanAux, if_neg h1, if_neg h2, if_pos h3] at hs
          exact ih seen s hs
        · rw [validateAndCleanAux, if_neg h1, if_neg h2, if_neg h3] at hs
          rcases List.mem_cons.mp hs with rfl | hs
          · exact normCat_mem sym.category
          · exact ih _ s hs

theorem validateAux_notin :
    ∀ (syms : List RawSymbol) (seen : List Chars) (k : Chars), k ∈ seen →
      ∀ s ∈ validateAndCleanAux syms seen, pyUpper s.description ≠ k := by
  intro syms
  induction syms with
  | nil => intro seen k _ s hs; simp [validateAndCleanAux] at hs
  | cons sym rest ih =>
    intro seen k hk s hs
    by_cases h1 : (pyStrip sym.description).length < 3
    · rw [validateAndCleanAux, if_pos h1] at hs
      exact ih seen k hk s hs
    · by_cases h2 : garbageMatch (pyUpper (pyStrip sym.description)) = true
      · rw [validateAndCleanAux, if_neg h1, if_pos h2] at hs
        exact ih seen k hk s hs
      · by_cases h3 : seen.contains (pyUpper (pyStrip sym.description)) = true
        · rw [validateAndCleanAux, if_neg h1, if_neg h2, if_pos h3] at hs
          exact ih seen k hk s hs
        · rw [validateAndCleanAux, if_neg h1, if_neg h2, if_neg h3] at hs
          rcases List.mem_cons.mp hs with rfl | hs
          · have hnot : pyUpper (pyStrip sym.description) ∉ seen := by
              intro hmem
              exact h3 (by simpa using hmem)
            intro he
            have : pyUpper (pyStrip sym.description) = k := he
            exact hnot (this ▸ hk)
          · exact ih _ k (List.mem_cons_of_mem _ hk) s hs

theorem validateAux_pairwise :
    ∀ (syms : List RawSymbol) (seen : List Chars),
      (validateAndCleanAux syms seen).Pairwise
        (fun a b => pyUpper a.description ≠ pyUpper b.description) := by
  intro syms
  induction syms with
  | nil => intro seen; simp [validateAndCleanAux]
  | cons sym rest ih =>
    intro seen
    by_cases h1 : (pyStrip sym.description).length < 3
    · rw [validateAndCleanAux, if_pos h1]; exact ih seen
    · by_cases h2 : garbageMatch (pyUpper (pyStrip sym.description)) = true
      · rw [validateAndCleanAux, if_neg h1, if_pos h2]; exact ih seen
      · by_cases h3 : seen.contains (pyUpper (pyStrip sym.description)) = true
        · rw [validateAndCleanAux, if_neg h1, if_neg h2, if_pos h3]; exact ih seen
        · rw [validateAndCleanAux, if_neg h1, if_neg h2, if_neg h3]
          refine List.pairwise_cons.mpr ⟨?_, ih _⟩
          intro b hb
          have hne := validateAux_notin rest
            (pyUpper (pyStrip sym.description) :: seen)
            (pyUpper (pyStrip sym.description)) (List.mem_cons_self _ _) b hb
          have hcs : pyUpper (cleanSym sym).description
              = pyUpper (pyStrip sym.description) := rfl
          exact fun he => hne (he.symm.trans hcs)

theorem validateAux_sublist :
    ∀ (syms : List RawSymbol) (seen : List Chars),
      (validateAndCleanAux syms seen).Sublist (syms.map cleanSym) := by
  intro syms
  induction syms with
  | nil => intro seen; simp [validateAndCleanAux]
  | cons sym rest ih =>
    intro seen
    by_cases h1 : (pyStrip sym.description).length < 3
    · rw [validateAndCleanAux, if_pos h1]
      exact (ih seen).cons _
    · by_cases h2 : garbageMatch (pyUpper (pyStrip sym.description)) = true
      · rw [validateAndCleanAux, if_neg h1, if_pos h2]
        exact (ih seen).cons _
      · by_cases h3 : seen.contains (pyUpper (pyStrip sym.description)) = true
        · rw [validateAndCleanAux, if_neg h1, if_neg h2, if_pos h3]
          exact (ih seen).cons _
        · rw [validateAndCleanAux, if_neg h1, if_neg h2, if_neg h3]
          exact (ih _).cons₂ _

/-- C8: every surviving legend row has its category normalised into the
six-member category set, the surviving descriptions are pairwise
distinct after upper-casing, and the survivors are (as normalised rows)
a subsequence of the input, i.e. they keep their relative order. -/
theorem claim_C8_validate_and_clean (syms : List RawSymbol) :
    (∀ s ∈ validateAndClean syms, s.category ∈ SYMBOL_CATEGORIES) ∧
    (validateAndClean syms).Pairwise
      (fun a b => pyUpper a.description ≠ pyUpper b.description) ∧
    (validateAndClean syms).Sublist (syms.map cleanSym) :=
  ⟨validateAux_cat syms [], validateAux_pairwise syms [], validateAux_sublist syms []⟩

/-- C8 witness: concrete legend rows with a case-folded duplicate, an
unknown category and a garbage header. -/
theorem claim_C8_validate_and_clean_witness :
    (validateAndClean symsC8).Pairwise
      (fun a b => pyUpper a.description ≠ pyUpper b.description) ∧
    (cleanSym (symsC8.getD 0 ⟨[], [], []⟩)).category ∈ SYMBOL_CATEGORIES ∧
    (validateAndClean symsC8).Sublist (symsC8.map cleanSym) := by
  have h := claim_C8_validate_and_clean symsC8
  exact ⟨h.2.1, h.1 _ (by decide), h.2.2⟩

theorem roundHalfEven_intCast (n : Int) : roundHalfEven (n : ℚ) = n := by
  unfold roundHalfEven
  rw [Int.floor_intCast, sub_self, if_pos (by norm_num : (0 : ℚ) < 1 / 2)]

theorem pyRound1_of_mul (q : ℚ) (n : Int) (h : q * 10 = (n : ℚ)) :
    pyRound1 q = (n : ℚ) / 10 := by
  unfold pyRound1
  rw [h, roundHalfEven_intCast]

theorem summaryOf_rate (nBom : Nat) (items : List CompItem) :
    (summaryOf nBom items).match_rate
      = pyRound1 (((summaryOf nBom items).matched : ℚ) /
          ((max 1 (summaryOf nBom items).comparable_items : Nat) : ℚ) * 100) ∧
    ((summaryOf nBom items).comparable_items = 0 → (summaryOf nBom items).match_rate = 0) := by
  constructor
  · rfl
  · intro hc
    have hc' : items.countP (fun ci => ci.match_status = "MATCH".data) +
        items.countP (fun ci => ci.match_status = "MISMATCH".data) +
        items.countP (fun ci => ci.match_status = "BOM_ONLY".data) +
        items.countP (fun ci => ci.match_status = "DRAWING_ONLY".data) = 0 := hc
    have hm : items.countP (fun ci => ci.match_status = "MATCH".data) = 0 := by omega
    show pyRound1 (((items.countP (fun ci => ci.match_status = "MATCH".data)) : ℚ) /
        ((max 1 (items.countP (fun ci => ci.match_status = "MATCH".data) +
          items.countP (fun ci => ci.match_status = "MISMATCH".data) +
          items.countP (fun ci => ci.match_status = "BOM_ONLY".data) +
          items.countP (fun ci => ci.match_status = "DRAWING_ONLY".data)) : Nat) : ℚ) * 100) = 0
    rw [hc', hm]
    have h0 : (((0 : Nat) : ℚ) / ((max 1 0 : Nat) : ℚ) * 100) = 0 := by norm_num
    rw [h0, pyRound1_of_mul 0 0 (by norm_num)]
    norm_num

/-- C2 (amended): the reported page match-rate is the *percentage*
`round(matched / max(1, comparable) * 100, 1)` — `matched / comparable`
scaled by 100 — and it is 0 whenever no row is comparable.  As literally
stated (rate = `matched / comparable` rounded to one decimal, without
the factor 100) the claim is false — see the counterexample. -/
theorem claim_C2_match_rate (pd : ComparePageData) (res : CompareResult)
    (h : compareSinglePage pd = some res) :
    res.summary.match_rate
      = pyRound1 ((res.summary.matched : ℚ) /
          ((max 1 res.summary.comparable_items : Nat) : ℚ) * 100) ∧
    (res.summary.comparable_items = 0 → res.summary.match_rate = 0) := by
  have h' : (buildGroups pd.components []).bind (fun gs =>
      (mapOptM (compareRow gs) pd.bom_table).bind (fun rows =>
        some (mkCompareResult pd gs rows))) = some res := h
  rcases Option.bind_eq_some.mp h' with ⟨gs, _, h2⟩
  rcases Option.bind_eq_some.mp h2 with ⟨rows, _, h3⟩
  injection h3 with h3
  subst h3
  exact summaryOf_rate pd.bom_table.length (compareItemsOf gs rows)

set_option maxRecDepth 100000 in
/-- C2 witness: the empty page has no comparable rows and rate 0. -/
theorem claim_C2_match_rate_witness :
    resEmpty.summary.match_rate
      = pyRound1 ((resEmpty.summary.matched : ℚ) /
          ((max 1 resEmpty.summary.comparable_items : Nat) : ℚ) * 100) ∧
    (resEmpty.summary.comparable_items = 0 → resEmpty.summary.match_rate = 0) :=
  claim_C2_match_rate {} resEmpty (by with_unfolding_all decide)

set_option maxRecDepth 100000 in
/-- C2 counterexample: one matching and one BOM-only row give
`matched = 1`, `comparable = 2` and a reported rate of `50.0`, whereas
`matched / comparable` rounded to one decimal is `0.5`. -/
theorem claim_C2_counterexample :
    (compareSinglePage pdC2).map
      (fun r => (r.summary.matched, r.summary.comparable_items, r.summary.match_rate))
      = some (1, 2, 50) ∧
    pyRound1 ((1 : ℚ) / 2) = 1 / 2 ∧ (50 : ℚ) ≠ 1 / 2 :=
  ⟨by with_unfolding_all decide,
   by rw [pyRound1_of_mul ((1 : ℚ) / 2) 5 (by norm_num)]; norm_num,
   by norm_num⟩

/-- C5: a BOM row that survives skipping and mapping and whose quantity
carries no metre unit gets verdict `BOM_ONLY` (diff 0) when no drawing
group matches, `MATCH` (diff 0) when a group matches with
`|bom − drawing| < 0.01`, and `MISMATCH` (diff = drawing − bom)
otherwise. -/
theorem claim_C5_verdicts (pd : ComparePageData) (res : CompareResult)
    (groups : List (Chars × ℚ)) (bq : ℚ) (i : Nat)
    (hg : buildGroups pd.components [] = some groups)
    (hres : compareSinglePage pd = some res)
    (hi : i < pd.bom_table.length)
    (hskip : (getComponentInfoFromBom (pd.bom_table.getD i dCleanBomItem)).skip = false)
    (hmap : ((getComponentInfoFromBom (pd.bom_table.getD i dCleanBomItem)).ctype.isEmpty &&
      (getComponentInfoFromBom (pd.bom_table.getD i dCleanBomItem)).subtype.isEmpty) = false)
    (hpl : isPipeLengthQty (pd.bom_table.getD i dCleanBomItem).quantity = false)
    (hq : parseBomQuantity (pd.bom_table.getD i dCleanBomItem).quantity = some bq) :
    (matchedGroupFor groups (getComponentInfoFromBom (pd.bom_table.getD i dCleanBomItem))
        = none →
      (res.comparison_items.getD i dCompItem).match_status = "BOM_ONLY".data ∧
      (res.comparison_items.getD i dCompItem).quantity_diff = 0) ∧
    (∀ g, matchedGroupFor groups (getComponentInfoFromBom (pd.bom_table.getD i dCleanBomItem))
        = some g →
      (|bq - g.2| < 1 / 100 →
        (res.comparison_items.getD i dCompItem).match_status = "MATCH".data ∧
        (res.comparison_items.getD i dCompItem).quantity_diff = 0) ∧
      (¬ |bq - g.2| < 1 / 100 →
        (res.comparison_items.getD i dCompItem).match_status = "MISMATCH".data ∧
        (res.comparison_items.getD i dCompItem).quantity_diff = g.2 - bq)) := by
  have h' : (buildGroups pd.components []).bind (fun gs =>
      (mapOptM (compareRow gs) pd.bom_table).bind (fun rows =>
        some (mkCompareResult pd gs rows))) = some res := hres
  rcases Option.bind_eq_some.mp h' with ⟨gs, hgs, h2⟩
  rcases Option.bind_eq_some.mp h2 with ⟨rows, hrows, h3⟩
  injection h3 with h3
  subst h3
  obtain rfl : groups = gs := Option.some.inj (hg.symm.trans hgs)
  have hlenr : rows.length = pd.bom_table.length := mapOptM_length _ _ _ hrows
  have hir : i < rows.length := by omega
  have hget : rows.get? i = (pd.bom_table.get? i).bind (compareRow groups) :=
    mapOptM_get? _ _ _ hrows i
  have hbom : pd.bom_table.get? i = some (pd.bom_table.getD i dCleanBomItem) := by
    rw [List.getD_eq_getElem _ _ hi, List.get?_eq_getElem?, List.getElem?_eq_getElem hi]
  have hrowi : rows.get? i = some (rows.getD i (dCompItem, none)) := by
    rw [List.getD_eq_getElem _ _ hir, List.get?_eq_getElem?, List.getElem?_eq_getElem hir]
  have hcr : compareRow groups (pd.bom_table.getD i dCleanBomItem)
      = some (rows.getD i (dCompItem, none)) := by
    rw [hbom] at hget
    rw [hrowi] at hget
    simpa using hget.symm
  have hitem : (mkCompareResult pd groups rows).comparison_items.getD i dCompItem
      = (rows.getD i (dCompItem, none)).1 := by
    show (compareItemsOf groups rows).getD i dCompItem = _
    have h1 : i < (rows.map Prod.fst).length := by simpa using hir
    have h2 : i < ((rows.map Prod.fst)
        ++ drawingOnlyEntries groups (rows.filterMap Prod.snd)).length := by
      simp only [List.length_append, List.length_map]
      omega
    rw [compareItemsOf, List.getD_eq_getElem _ _ h2, List.getElem_append_left h1,
      List.getElem_map, List.getD_eq_getElem _ _ hir]
  rw [hitem]
  simp only [compareRow, hskip, hmap, hpl, hq, Bool.false_eq_true, if_false,
    Option.some_bind] at hcr
  rcases hmg : matchedGroupFor groups
      (getComponentInfoFromBom (pd.bom_table.getD i dCleanBomItem)) with _ | g0
  · rw [hmg] at hcr
    have he := Option.some.inj hcr
    constructor
    · intro _
      rw [← he]
      exact ⟨rfl, rfl⟩
    · intro g hgg
      exact Option.noConfusion hgg
  · rw [hmg] at hcr
    have he := Option.some.inj hcr
    constructor
    · intro hnone
      exact Option.noConfusion hnone
    · intro g hgg
      obtain rfl : g0 = g := Option.some.inj hgg
      constructor
      · intro hlt
        rw [← he]
        constructor
        · show (if |bq - g0.2| < 1 / 100 then "MATCH".data else "MISMATCH".data)
            = "MATCH".data
          rw [if_pos hlt]
        · show (if |bq - g0.2| < 1 / 100 then (0 : ℚ) else g0.2 - bq) = 0
          rw [if_pos hlt]
      · intro hge
        rw [← he]
        constructor
        · show (if |bq - g0.2| < 1 / 100 then "MATCH".data else "MISMATCH".data)
            = "MISMATCH".data
          rw [if_neg hge]
        · show (if |bq - g0.2| < 1 / 100 then (0 : ℚ) else g0.2 - bq) = g0.2 - bq
          rw [if_neg hge]

set_option maxRecDepth 100000 in
/-- C5 witness: the single flange row of `pdC5` matches its drawing
group exactly and receives verdict `MATCH` with zero difference. -/
theorem claim_C5_verdicts_witness :
    (resC5.comparison_items.getD 0 dCompItem).match_status = "MATCH".data ∧
    (resC5.comparison_items.getD 0 dCompItem).quantity_diff = 0 := by
  have h := claim_C5_verdicts pdC5 resC5 [("flange:wn_flange".data, 2)] 2 0
    (by with_unfolding_all decide) (by with_unfolding_all decide) (by decide)
    (by decide) (by decide) (by decide) (by with_unfolding_all decide)
  exact (h.2 ("flange:wn_flange".data, 2) (by with_unfolding_all decide)).1
    (by with_unfolding_all decide)
